import Mathlib

/-!
Verification development for the web routing and dispatch layer of the
daily_stock_analysis repository (src/web/router.py, src/web/handlers.py,
src/web/templates.py).

The Python code is shallowly embedded: byte strings become `List Nat`,
Python `str` becomes Lean `String`, Python dicts become insertion-ordered
association lists, raised exceptions become `Except String`, and the
side effects of a dispatch (the bytes written to the socket, the log lines,
the calls made to the external webhook service) are collected in explicit
output structures.
-/

set_option maxHeartbeats 2000000
set_option maxRecDepth 8000

namespace DailyStock

/-- Byte strings (Python `bytes`) are modelled as lists of naturals below 256. -/
abbrev Bytes := List Nat

/-! ### Models of Python string built-ins -/

/-- Model of `str.upper` on one character (ASCII range, as exercised by the code). -/
def pyUpperChar (c : Char) : Char :=
  if 97 ≤ c.toNat ∧ c.toNat ≤ 122 then Char.ofNat (c.toNat - 32) else c

/-- Model of `str.upper`. -/
def pyUpper (s : String) : String := ⟨s.data.map pyUpperChar⟩

/-- Model of `str.lower` on one character (ASCII range). -/
def pyLowerChar (c : Char) : Char :=
  if 65 ≤ c.toNat ∧ c.toNat ≤ 90 then Char.ofNat (c.toNat + 32) else c

/-- Model of `str.lower`. -/
def pyLower (s : String) : String := ⟨s.data.map pyLowerChar⟩

/-- Model of `str.split(sep)` for a one-character separator: Python keeps
empty pieces, and splitting the empty string yields one empty piece. -/
def pySplit : List Char → Char → List (List Char)
  | [], _ => [[]]
  | c :: cs, sep =>
    if c = sep then [] :: pySplit cs sep
    else
      match pySplit cs sep with
      | f :: rest => (c :: f) :: rest
      | [] => [[c]]

/-- Model of `str.split(sep)` returning strings. -/
def pySplitStr (s : String) (sep : Char) : List String :=
  (pySplit s.data sep).map (fun cs => ⟨cs⟩)

/-- Model of `str.split(sep, 1)`: split at the first occurrence only;
`none` when the separator does not occur. -/
def splitOnce : List Char → Char → Option (List Char × List Char)
  | [], _ => none
  | c :: cs, sep =>
    if c = sep then some ([], cs)
    else (splitOnce cs sep).map (fun pr => (c :: pr.1, pr.2))

/-- String version of `splitOnce`. -/
def splitOnceStr (s : String) (sep : Char) : Option (String × String) :=
  (splitOnce s.data sep).map (fun pr => (⟨pr.1⟩, ⟨pr.2⟩))

/-- Model of `str.startswith(pre)`. -/
def pyStartsWith (s pre : String) : Bool := List.isPrefixOf pre.data s.data

/-- Model of `str.strip(c)` for a one-character strip set. -/
def pyStripChar (s : String) (c : Char) : String :=
  ⟨((s.data.dropWhile (fun d => d = c)).reverse.dropWhile (fun d => d = c)).reverse⟩

/-- Characters accepted by `str.strip()` in `int()` (ASCII whitespace). -/
def isPySpace (c : Char) : Bool :=
  c = ' ' || c = '\t' || c = '\n' || c = '\r' || c.toNat = 11 || c.toNat = 12

/-- Hexadecimal digit test. -/
def isHexDigitB (c : Char) : Bool :=
  c.isDigit || (97 ≤ c.toNat && c.toNat ≤ 102) || (65 ≤ c.toNat && c.toNat ≤ 70)

/-- Value of a hexadecimal digit. -/
def hexVal (c : Char) : Nat :=
  if c.isDigit then c.toNat - 48
  else if 97 ≤ c.toNat then c.toNat - 87
  else c.toNat - 55

/-! ### UTF-8 encoding and decoding -/

/-- Standard UTF-8 encoding of one scalar value. -/
def utf8Char (c : Char) : Bytes :=
  let n := c.toNat
  if n < 128 then [n]
  else if n < 2048 then [192 + n / 64, 128 + n % 64]
  else if n < 65536 then [224 + n / 4096, 128 + (n / 64) % 64, 128 + n % 64]
  else [240 + n / 262144, 128 + (n / 4096) % 64, 128 + (n / 64) % 64, 128 + n % 64]

/-- Model of `str.encode("utf-8")`. -/
def utf8Encode (s : String) : Bytes := s.data.flatMap utf8Char

/-- The Unicode replacement character U+FFFD. -/
def replChar : Char := Char.ofNat 65533

/-- Continuation byte test for UTF-8 decoding. -/
def isCont (b : Nat) : Bool := 128 ≤ b && b ≤ 191

/-- Model of `bytes.decode("utf-8", errors="replace")`: each ill-formed
subsequence is replaced by U+FFFD after consuming its maximal valid prefix. -/
def utf8DecodeReplace : Bytes → List Char
  | [] => []
  | b :: rest =>
    if b < 128 then Char.ofNat b :: utf8DecodeReplace rest
    else if b < 194 then replChar :: utf8DecodeReplace rest
    else if b ≤ 223 then
      match rest with
      | [] => [replChar]
      | b2 :: rest2 =>
        if isCont b2 then Char.ofNat ((b - 192) * 64 + (b2 - 128)) :: utf8DecodeReplace rest2
        else replChar :: utf8DecodeReplace (b2 :: rest2)
    else if b ≤ 239 then
      match rest with
      | [] => [replChar]
      | b2 :: rest2 =>
        if (if b = 224 then 160 else 128) ≤ b2 ∧ b2 ≤ (if b = 237 then 159 else 191) then
          match rest2 with
          | [] => [replChar]
          | b3 :: rest3 =>
            if isCont b3 then
              Char.ofNat ((b - 224) * 4096 + (b2 - 128) * 64 + (b3 - 128)) :: utf8DecodeReplace rest3
            else replChar :: utf8DecodeReplace (b3 :: rest3)
        else replChar :: utf8DecodeReplace (b2 :: rest2)
    else if b ≤ 244 then
      match rest with
      | [] => [replChar]
      | b2 :: rest2 =>
        if (if b = 240 then 144 else 128) ≤ b2 ∧ b2 ≤ (if b = 244 then 143 else 191) then
          match rest2 with
          | [] => [replChar]
          | b3 :: rest3 =>
            if isCont b3 then
              match rest3 with
              | [] => [replChar]
              | b4 :: rest4 =>
                if isCont b4 then
                  Char.ofNat ((b - 240) * 262144 + (b2 - 128) * 4096 + (b3 - 128) * 64 + (b4 - 128)) ::
                    utf8DecodeReplace rest4
                else replChar :: utf8DecodeReplace (b4 :: rest4)
            else replChar :: utf8DecodeReplace (b3 :: rest3)
        else replChar :: utf8DecodeReplace (b2 :: rest2)
    else replChar :: utf8DecodeReplace rest

/-! ### Model of `urllib.parse` percent-decoding -/

/-- Model of `urllib.parse.unquote_to_bytes` restricted to one ASCII run:
`%XX` with two hex digits becomes the byte `XX`; a `%` not followed by two
hex digits is kept literally. -/
def unquoteToBytes : List Char → Bytes
  | [] => []
  | '%' :: c1 :: c2 :: rest =>
    if isHexDigitB c1 && isHexDigitB c2 then (hexVal c1 * 16 + hexVal c2) :: unquoteToBytes rest
    else 37 :: unquoteToBytes (c1 :: c2 :: rest)
  | c :: rest => c.toNat :: unquoteToBytes rest

/-- Model of the body of `urllib.parse.unquote`: maximal ASCII runs are
percent-decoded to bytes and UTF-8 decoded with replacement; non-ASCII
characters pass through unchanged. -/
def unquoteRuns : List Char → List Char
  | [] => []
  | c :: rest =>
    if h : c.toNat < 128 then
      utf8DecodeReplace (unquoteToBytes ((c :: rest).takeWhile (fun d => d.toNat < 128))) ++
        unquoteRuns ((c :: rest).dropWhile (fun d => d.toNat < 128))
    else c :: unquoteRuns rest
termination_by cs => cs.length
decreasing_by
  · rw [List.dropWhile_cons_of_pos (by simp [h])]
    exact Nat.lt_succ_of_le ((List.dropWhile_sublist _).length_le)
  · simp

/-- Model of `urllib.parse.unquote` (default encoding utf-8, errors replace). -/
def unquote (s : String) : String :=
  if s.data.contains '%' then ⟨unquoteRuns s.data⟩ else s

/-- Model of `urllib.parse.unquote_plus`. -/
def unquote_plus (s : String) : String :=
  unquote ⟨s.data.map (fun c => if c = '+' then ' ' else c)⟩

/-! ### Model of `urllib.parse.parse_qsl` and `parse_qs` -/

/-- One field of a query string, as processed by `parse_qsl` with
`keep_blank_values=False`: empty fields, fields without `=`, and fields
whose raw value part is empty are dropped; kept fields have name and value
percent-decoded with `+` replaced by space. -/
def parseField (f : String) : Option (String × String) :=
  if f = "" then none
  else
    match splitOnceStr f '=' with
    | none => none
    | some (nm, v) => if v = "" then none else some (unquote_plus nm, unquote_plus v)

/-- Model of `urllib.parse.parse_qsl(qs)` with default arguments. -/
def parse_qsl (qs : String) : List (String × String) :=
  (pySplitStr qs '&').filterMap parseField

/-- Insertion-ordered multi-map update: append the value to an existing
key in place, or append a new key at the end (Python dict of lists). -/
def multiAdd : List (String × List String) → String → String → List (String × List String)
  | [], k, v => [(k, [v])]
  | kv :: rest, k, v =>
    if kv.1 = k then (kv.1, kv.2 ++ [v]) :: rest else kv :: multiAdd rest k v

/-- Model of `urllib.parse.parse_qs(qs)` with default arguments. -/
def parse_qs (qs : String) : List (String × List String) :=
  (parse_qsl qs).foldl (fun d kv => multiAdd d kv.1 kv.2) []

/-! ### Insertion-ordered dictionaries (Python `dict`) -/

/-- Python dict lookup on an insertion-ordered association list. -/
def dictGet {α : Type} : List (String × α) → String → Option α
  | [], _ => none
  | kv :: rest, k => if kv.1 = k then some kv.2 else dictGet rest k

/-- Python dict assignment: replace in place, or append a new key at the end. -/
def dictSet {α : Type} : List (String × α) → String → α → List (String × α)
  | [], k, v => [(k, v)]
  | kv :: rest, k, v => if kv.1 = k then (k, v) :: rest else kv :: dictSet rest k v

/-! ### Model of `urllib.parse.urlsplit` / `urlparse` -/

/-- Characters allowed in a URL scheme. -/
def schemeChar (c : Char) : Bool := c.isAlphanum || c = '+' || c = '-' || c = '.'

/-- Result of `urlsplit`. -/
structure SplitResult where
  scheme : String
  netloc : String
  path : String
  query : String
  fragment : String

/-- Model of `urllib.parse.urlsplit`: strip leading C0-control-or-space,
remove tab, CR and LF anywhere, split off scheme, `//`-netloc, fragment
(first `#`), then query (first `?`). -/
def urlsplit (url : String) : SplitResult :=
  let cs := (url.data.dropWhile (fun c => c.toNat ≤ 32)).filter
      (fun c => ¬(c = '\t' ∨ c = '\r' ∨ c = '\n'))
  let schemeSplit :=
    match splitOnce cs ':' with
    | some (pre, post) =>
      if !pre.isEmpty &&
          (match pre.head? with
            | some c => c.isAlpha && decide (c.toNat < 128)
            | none => false) &&
          pre.all schemeChar then
        ((pre.map pyLowerChar : List Char), post)
      else (([] : List Char), cs)
    | none => (([] : List Char), cs)
  let scheme := schemeSplit.1
  let rest0 := schemeSplit.2
  let netlocSplit :=
    if rest0.take 2 = ['/', '/'] then
      ((rest0.drop 2).takeWhile (fun c => ¬(c = '/' ∨ c = '?' ∨ c = '#')),
       (rest0.drop 2).dropWhile (fun c => ¬(c = '/' ∨ c = '?' ∨ c = '#')))
    else (([] : List Char), rest0)
  let netloc := netlocSplit.1
  let rest1 := netlocSplit.2
  let fragSplit :=
    match splitOnce rest1 '#' with
    | some (a, b) => (a, b)
    | none => (rest1, ([] : List Char))
  let querySplit :=
    match splitOnce fragSplit.1 '?' with
    | some (a, b) => (a, b)
    | none => (fragSplit.1, ([] : List Char))
  ⟨⟨scheme⟩, ⟨netloc⟩, ⟨querySplit.1⟩, ⟨querySplit.2⟩, ⟨fragSplit.2⟩⟩

/-- Result of `urlparse`. -/
structure ParseResult where
  scheme : String
  netloc : String
  path : String
  params : String
  query : String
  fragment : String

/-- Model of `urllib.parse._splitparams`. -/
def splitparams (url : List Char) : List Char × List Char :=
  if url.contains '/' then
    let revTail := url.reverse.takeWhile (fun c => c ≠ '/')
    let revPre := url.reverse.dropWhile (fun c => c ≠ '/')
    match splitOnce revTail.reverse ';' with
    | some (t1, t2) => (revPre.reverse ++ t1, t2)
    | none => (url, [])
  else
    match splitOnce url ';' with
    | some (a, b) => (a, b)
    | none => (url, [])

/-- Model of `urllib.parse.urlparse`. -/
def urlparse (url : String) : ParseResult :=
  let s := urlsplit url
  if s.path.data.contains ';' then
    let pr := splitparams s.path.data
    ⟨s.scheme, s.netloc, ⟨pr.1⟩, ⟨pr.2⟩, s.query, s.fragment⟩
  else
    ⟨s.scheme, s.netloc, s.path, "", s.query, s.fragment⟩

/-! ### Model of Python `int(str)` -/

/-- After a leading digit: `(digit | _ digit)*`, returning the digits with
underscores removed, or `none` when malformed. -/
def digitsRest : List Char → Option (List Char)
  | [] => some []
  | '_' :: c :: rest => if c.isDigit then (digitsRest rest).map (fun ds => c :: ds) else none
  | ['_'] => none
  | c :: rest => if c.isDigit then (digitsRest rest).map (fun ds => c :: ds) else none

/-- A nonempty digit sequence with optional single underscores between digits. -/
def pyIntDigits : List Char → Option (List Char)
  | [] => none
  | c :: rest => if c.isDigit then (digitsRest rest).map (fun ds => c :: ds) else none

/-- Decimal value of a digit list. -/
def digitsToNat (ds : List Char) : Nat :=
  ds.foldl (fun a c => 10 * a + (c.toNat - 48)) 0

/-- Model of Python `int(s)` (base 10): strip ASCII whitespace, optional
sign, digits with underscore grouping; anything else raises `ValueError`. -/
def pyInt (s : String) : Except String Int :=
  let t := ((s.data.dropWhile isPySpace).reverse.dropWhile isPySpace).reverse
  let err : Except String Int :=
    Except.error ("invalid literal for int() with base 10: \x27" ++ s ++ "\x27")
  match t with
  | '-' :: rest =>
    match pyIntDigits rest with
    | some ds => Except.ok (-(digitsToNat ds : Int))
    | none => err
  | '+' :: rest =>
    match pyIntDigits rest with
    | some ds => Except.ok (digitsToNat ds)
    | none => err
  | u =>
    match pyIntDigits u with
    | some ds => Except.ok (digitsToNat ds)
    | none => err

/-! ### JSON values and `json.dumps(data, ensure_ascii=False, indent=2)` -/

/-- JSON-serializable values (numbers restricted to integers, which is all
the routing layer produces). -/
inductive Json where
  | null : Json
  | bool (b : Bool) : Json
  | num (n : Int) : Json
  | str (s : String) : Json
  | arr (elems : List Json) : Json
  | obj (members : List (String × Json)) : Json

/-- Decimal digits of a natural number, with structural fuel (the fuel is
always sufficient in `natDigits`, which passes `n + 1`). -/
def natDigitsAux : Nat → Nat → List Char
  | 0, _ => []
  | fuel + 1, n =>
    if n < 10 then [Char.ofNat (48 + n)]
    else natDigitsAux fuel (n / 10) ++ [Char.ofNat (48 + n % 10)]

/-- Decimal digits of a natural number (model of Python `str(int)`). -/
def natDigits (n : Nat) : List Char := natDigitsAux (n + 1) n

/-- Model of Python `str` on a natural number. -/
def natReprStr (n : Nat) : String := ⟨natDigits n⟩

/-- Model of Python `repr`/`str` on an integer. -/
def intRepr (n : Int) : List Char :=
  if n < 0 then '-' :: natDigits n.natAbs else natDigits n.toNat

/-- Lower-case hexadecimal digit character. -/
def hexDigitChar (n : Nat) : Char :=
  if n < 10 then Char.ofNat (48 + n) else Char.ofNat (87 + n)

/-- Model of the `json` module string escaping with `ensure_ascii=False`:
quote, backslash and the short control escapes are replaced; other control
characters become `\u00XX`; everything else passes through. -/
def escChar (c : Char) : List Char :=
  if c = '\"' then ['\\', '\"']
  else if c = '\\' then ['\\', '\\']
  else if c = '\n' then ['\\', 'n']
  else if c = '\r' then ['\\', 'r']
  else if c = '\t' then ['\\', 't']
  else if c.toNat = 8 then ['\\', 'b']
  else if c.toNat = 12 then ['\\', 'f']
  else if c.toNat < 32 then ['\\', 'u', '0', '0', hexDigitChar (c.toNat / 16), hexDigitChar (c.toNat % 16)]
  else [c]

/-- JSON string literal for `s` (model of `json.encoder.py_encode_basestring`). -/
def encodeString (s : String) : List Char :=
  '\"' :: s.data.flatMap escChar ++ ['\"']

/-- The newline-plus-indentation separator used by `json.dumps` with `indent=2`
at nesting level `k`. -/
def indentStr (k : Nat) : List Char := '\n' :: List.replicate (2 * k) ' '

/-- Left curly brace (written via its code point throughout this file). -/
def lbrace : Char := Char.ofNat 123

/-- Right curly brace. -/
def rbrace : Char := Char.ofNat 125

mutual

/-- Model of `json.dumps(·, ensure_ascii=False, indent=2)` at nesting level `k`. -/
def dumps1 : Nat → Json → List Char
  | _, .null => ['n', 'u', 'l', 'l']
  | _, .bool true => ['t', 'r', 'u', 'e']
  | _, .bool false => ['f', 'a', 'l', 's', 'e']
  | _, .num n => intRepr n
  | _, .str s => encodeString s
  | _, .arr [] => ['[', ']']
  | k, .arr (x :: xs) =>
    '[' :: (indentStr (k + 1) ++ dumpItems (k + 1) x xs ++ indentStr k) ++ [']']
  | _, .obj [] => [lbrace, rbrace]
  | k, .obj (m :: ms) =>
    lbrace :: (indentStr (k + 1) ++ dumpMembers (k + 1) m ms ++ indentStr k) ++ [rbrace]
termination_by k j => sizeOf j
decreasing_by all_goals simp_wf <;> simp_arith

/-- The comma-and-newline separated items of a nonempty JSON array. -/
def dumpItems : Nat → Json → List Json → List Char
  | k, x, [] => dumps1 k x
  | k, x, y :: ys => dumps1 k x ++ ',' :: indentStr k ++ dumpItems k y ys
termination_by k x xs => 1 + sizeOf x + sizeOf xs
decreasing_by all_goals simp_wf <;> simp_arith

/-- The comma-and-newline separated members of a nonempty JSON object;
the key separator is `": "`. -/
def dumpMembers : Nat → (String × Json) → List (String × Json) → List Char
  | k, (s, v), [] => encodeString s ++ ':' :: ' ' :: dumps1 k v
  | k, (s, v), m2 :: ms =>
    (encodeString s ++ ':' :: ' ' :: dumps1 k v) ++ ',' :: indentStr k ++ dumpMembers k m2 ms
termination_by k m ms => 1 + sizeOf m + sizeOf ms
decreasing_by all_goals simp_wf <;> simp_arith

end

/-- Model of `json.dumps(data, ensure_ascii=False, indent=2)`. -/
def dumps (d : Json) : String := ⟨dumps1 0 d⟩

/-! ### Model of `web/handlers.py`: Response classes and the bot handler -/

/-- The `Response` value object: body bytes, status code, content type. -/
structure Response where
  body : Bytes
  status : Nat
  contentType : String

/-- One unit written to the transport by `Response.send`. -/
inductive WireItem where
  | statusLine (status : Nat) : WireItem
  | header (name value : String) : WireItem
  | endHeaders : WireItem
  | bodyBytes (b : Bytes) : WireItem
deriving DecidableEq

/-- Model of `Response.send`: status line, Content-Type header,
Content-Length header computed as `str(len(body))`, end of headers, body. -/
def Response.send (r : Response) : List WireItem :=
  [WireItem.statusLine r.status,
   WireItem.header "Content-Type" r.contentType,
   WireItem.header "Content-Length" (natReprStr r.body.length),
   WireItem.endHeaders,
   WireItem.bodyBytes r.body]

/-- Model of the `JsonResponse` constructor: the body is the UTF-8 encoding
of `json.dumps(data, ensure_ascii=False, indent=2)`. -/
def JsonResponse (data : Json) (status : Nat) : Response :=
  ⟨utf8Encode (dumps data), status, "application/json; charset=utf-8"⟩

/-- Model of the `HtmlResponse` constructor. -/
def HtmlResponse (body : Bytes) (status : Nat) : Response :=
  ⟨body, status, "text/html; charset=utf-8"⟩

/-! ### Model of `web/templates.py`: error pages -/

/-- Model of `html.escape` (with its default `quote=True`) on one character. -/
def htmlEscapeChar (c : Char) : List Char :=
  if c = '&' then "&amp;".data
  else if c = '<' then "&lt;".data
  else if c = '>' then "&gt;".data
  else if c = '\"' then "&quot;".data
  else if c.toNat = 39 then "&#x27;".data
  else [c]

/-- Model of `html.escape` with `quote=True`. -/
def htmlEscape (s : String) : String := ⟨s.data.flatMap htmlEscapeChar⟩

/-- The `BASE_CSS` constant from `web/templates.py` (the literal is split
into bounded concatenated pieces so that proofs can evaluate each piece). -/
def BASE_CSS : String :=
  "\n:root \x7b\n    --primary: #2563eb;\n    --primary-hover: #1d4ed8;\n    --bg: #f8fafc;\n    --card: #ffffff;\n    --text: #1e293b;\n    --text-light: #64748b;\n    --border: #e2e8f0;\n    --success: #10b981;\n    --error: #ef4444;\n    --warning: #f59e0b;\n    --info: #3b82f6;\n    --nav-bg: #1e293b;\n    --nav-te" ++
  "xt: #ffffff;\n\x7d\n\n* \x7b\n    box-sizing: border-box;\n\x7d\n\nbody \x7b\n    font-family: -apple-system, BlinkMacSystemFont, \"Segoe UI\", Roboto, \"Helvetica Neue\", Arial, sans-serif;\n    background-color: var(--bg);\n    color: var(--text);\n    margin: 0;\n    padding: 0;\n    min-height: 100vh;\n\x7d\n\n.navbar \x7b\n    backg" ++
  "round-color: var(--nav-bg);\n    color: var(--nav-text);\n    padding: 0.75rem 2rem;\n    display: flex;\n    justify-content: space-between;\n    align-items: center;\n    position: sticky;\n    top: 0;\n    z-index: 100;\n    box-shadow: 0 2px 4px rgba(0,0,0,0.1);\n\x7d\n\n.navbar-brand \x7b\n    font-size: 1.1rem;\n" ++
  "    font-weight: 700;\n    text-decoration: none;\n    color: white;\n    display: flex;\n    align-items: center;\n    gap: 0.5rem;\n    white-space: nowrap;\n\x7d\n\n.navbar-nav \x7b\n    display: flex;\n    gap: 0.5rem;\n    list-style: none;\n    margin: 0;\n    padding: 0;\n    overflow-x: auto;\n\x7d\n\n.nav-link \x7b\n    " ++
  "color: rgba(255,255,255,0.7);\n    text-decoration: none;\n    font-size: 0.85rem;\n    font-weight: 500;\n    transition: all 0.2s;\n    padding: 0.5rem 0.75rem;\n    border-radius: 0.375rem;\n    white-space: nowrap;\n\x7d\n\n.nav-link:hover \x7b\n    color: white;\n    background: rgba(255,255,255,0.1);\n\x7d\n\n.nav-li" ++
  "nk.active \x7b\n    color: white;\n    background: var(--primary);\n\x7d\n\n.main-content \x7b\n    display: flex;\n    justify-content: center;\n    align-items: flex-start;\n    padding: 2rem;\n\x7d\n\n.container \x7b\n    background: var(--card);\n    padding: 2rem;\n    border-radius: 1rem;\n    box-shadow: 0 4px 6px -1px rgb" ++
  "(0 0 0 / 0.1), 0 2px 4px -2px rgb(0 0 0 / 0.1);\n    width: 100%;\n    max-width: 800px;\n\x7d\n\n/* 统一按钮样式 */\nbutton, .btn \x7b\n    background-color: var(--primary);\n    color: white;\n    border: none;\n    padding: 0.6rem 1.2rem;\n    border-radius: 0.5rem;\n    font-weight: 600;\n    cursor: pointer;\n    transi" ++
  "tion: all 0.2s;\n    text-decoration: none;\n    display: inline-flex;\n    align-items: center;\n    justify-content: center;\n    gap: 0.4rem;\n    font-size: 0.9rem;\n    border: 1px solid transparent;\n\x7d\n\nbutton:hover, .btn:hover \x7b\n    background-color: var(--primary-hover);\n    transform: translateY(-1" ++
  "px);\n    box-shadow: 0 4px 6px -1px rgba(0,0,0,0.1);\n\x7d\n\nbutton:active, .btn:active \x7b\n    transform: translateY(0);\n\x7d\n\nbutton:disabled, .btn:disabled \x7b\n    background-color: var(--text-light);\n    cursor: not-allowed;\n    transform: none;\n    opacity: 0.6;\n\x7d\n\n.btn-success \x7b background-color: var(--su" ++
  "ccess); \x7d\n.btn-success:hover \x7b background-color: #059669; \x7d\n\n.btn-error \x7b background-color: var(--error); \x7d\n.btn-error:hover \x7b background-color: #dc2626; \x7d\n\n.btn-outline \x7b\n    background-color: transparent;\n    border-color: var(--border);\n    color: var(--text);\n\x7d\n.btn-outline:hover \x7b\n    backgroun" ++
  "d-color: #f8fafc;\n    border-color: var(--primary);\n    color: var(--primary);\n\x7d\n\n/* Table Styles */\n.data-table \x7b\n    width: 100%;\n    border-collapse: collapse;\n    margin-top: 1rem;\n    font-size: 0.875rem;\n\x7d\n\n.data-table th, .data-table td \x7b\n    padding: 0.75rem;\n    text-align: left;\n    border" ++
  "-bottom: 1px solid var(--border);\n\x7d\n\n.data-table th \x7b\n    background-color: #f8fafc;\n    font-weight: 600;\n    color: var(--text-light);\n    cursor: pointer;\n\x7d\n\n.data-table tr:hover \x7b\n    background-color: #fdfdfd;\n\x7d\n\n.sort-icon::after \x7b content: \x27 ↕\x27; opacity: 0.3; font-size: 0.7rem; \x7d\n.sort-asc::a" ++
  "fter \x7b content: \x27 ↑\x27; opacity: 1; \x7d\n.sort-desc::after \x7b content: \x27 ↓\x27; opacity: 1; \x7d\n\n.search-box \x7b\n    width: 100%;\n    padding: 0.6rem 1rem;\n    border: 1px solid var(--border);\n    border-radius: 0.5rem;\n    margin-bottom: 1rem;\n    font-size: 0.9rem;\n\x7d\n\n.badge \x7b\n    display: inline-block;\n    pa" ++
  "dding: 0.2rem 0.5rem;\n    border-radius: 0.375rem;\n    font-size: 0.75rem;\n    font-weight: 600;\n\x7d\n\n.badge-success \x7b background-color: #dcfce7; color: #166534; \x7d\n.badge-error \x7b background-color: #fee2e2; color: #991b1b; \x7d\n.badge-warning \x7b background-color: #fef3c7; color: #92400e; \x7d\n.badge-info \x7b ba" ++
  "ckground-color: #dbeafe; color: #1e40af; \x7d\n\n/* Task/History Cards */\n.task-list \x7b\n    display: flex;\n    flex-direction: column;\n    gap: 0.75rem;\n\x7d\n\n.task-card \x7b\n    display: flex;\n    align-items: center;\n    gap: 1rem;\n    padding: 1rem;\n    background: #fff;\n    border-radius: 0.75rem;\n    borde" ++
  "r: 1px solid var(--border);\n    transition: all 0.2s;\n\x7d\n\n.task-card:hover \x7b\n    border-color: var(--primary);\n    box-shadow: 0 4px 6px -1px rgba(0,0,0,0.05);\n\x7d\n\n.task-card.completed \x7b border-left: 4px solid var(--success); \x7d\n.task-card.failed \x7b border-left: 4px solid var(--error); \x7d\n\n.task-status \x7b" ++
  "\n    width: 32px;\n    height: 32px;\n    display: flex;\n    align-items: center;\n    justify-content: center;\n    border-radius: 50%;\n    flex-shrink: 0;\n    font-weight: bold;\n\x7d\n\n.completed .task-status \x7b background: #dcfce7; color: #166534; \x7d\n.failed .task-status \x7b background: #fee2e2; color: #991b" ++
  "1b; \x7d\n\n.task-main \x7b flex: 1; min-width: 0; \x7d\n.task-title \x7b display: flex; align-items: center; gap: 0.5rem; font-weight: 700; margin-bottom: 0.25rem; \x7d\n.task-title .code \x7b font-family: monospace; color: var(--primary); background: #eff6ff; padding: 0.1rem 0.4rem; border-radius: 0.25rem; font-size: 0" ++
  ".85rem; \x7d\n.task-meta \x7b display: flex; gap: 1rem; font-size: 0.75rem; color: var(--text-light); \x7d\n\n.task-result \x7b text-align: right; \x7d\n.task-score \x7b display: block; font-size: 0.7rem; color: var(--text-light); margin-top: 0.25rem; \x7d\n\n.task-detail \x7b\n    background: #fff;\n    border: 1px solid var(--bo" ++
  "rder);\n    border-top: none;\n    border-radius: 0 0 0.75rem 0.75rem;\n    padding: 1.5rem;\n    margin-top: -0.75rem;\n    margin-bottom: 1rem;\n\x7d\n\n/* Report Sections */\n.report-section \x7b margin-top: 1.5rem; border-top: 1px solid #f1f5f9; padding-top: 1rem; \x7d\n.report-section-title \x7b font-size: 1rem; fon" ++
  "t-weight: 800; margin-bottom: 0.75rem; display: flex; align-items: center; gap: 0.4rem; color: var(--text); \x7d\n.report-grid \x7b display: grid; grid-template-columns: 1fr 1fr; gap: 1rem; margin-bottom: 1rem; \x7d\n.report-card \x7b background: #f8fafc; border: 1px solid var(--border); border-radius: 0.5rem; pa" ++
  "dding: 1rem; \x7d\n.mini-table \x7b width: 100%; border-collapse: collapse; font-size: 0.8rem; \x7d\n.mini-table th, .mini-table td \x7b padding: 0.4rem; border: 1px solid var(--border); text-align: left; \x7d\n.mini-table th \x7b background: #f1f5f9; font-weight: 600; width: 40%; \x7d\n.check-list \x7b list-style: none; paddi" ++
  "ng: 0; margin: 0; display: grid; grid-template-columns: 1fr 1fr; gap: 0.4rem; \x7d\n.check-item \x7b font-size: 0.8rem; display: flex; align-items: center; gap: 0.3rem; color: var(--text-light); \x7d\n.one-sentence-box \x7b border-left: 3px solid var(--primary); padding-left: 0.75rem; margin: 0.75rem 0; font-styl" ++
  "e: italic; font-size: 0.9rem; color: var(--text-light); \x7d\n.highlight-box \x7b padding: 0.1rem 0.3rem; border-radius: 0.2rem; font-weight: 600; font-size: 0.85rem; \x7d\n\n.pagination \x7b display: flex; justify-content: center; gap: 0.5rem; margin-top: 2rem; \x7d\n.page-btn \x7b padding: 0.4rem 0.8rem; border: 1px so" ++
  "lid var(--border); background: white; border-radius: 0.375rem; text-decoration: none; color: var(--text); font-size: 0.85rem; \x7d\n.page-btn.active \x7b background: var(--primary); color: white; border-color: var(--primary); \x7d\n\n.code-badge \x7b background: #f1f5f9; padding: 0.2rem 0.4rem; border-radius: 0.25" ++
  "rem; font-family: monospace; color: var(--primary); \x7d\n.form-group \x7b margin-bottom: 1.5rem; \x7d\nlabel \x7b display: block; margin-bottom: 0.5rem; font-weight: 600; \x7d\ntextarea, input[type=\"text\"], input[type=\"password\"] \x7b width: 100%; padding: 0.75rem; border: 1px solid var(--border); border-radius: 0.5rem" ++
  "; font-size: 0.9rem; \x7d\n.text-muted \x7b font-size: 0.75rem; color: var(--text-light); margin-top: 0.4rem; \x7d\n.footer \x7b margin-top: 3rem; padding-top: 1.5rem; border-top: 1px solid var(--border); text-align: center; color: var(--text-light); font-size: 0.8rem; \x7d\n\n/* Performance Grid */\n.perf-grid \x7b\n    d" ++
  "isplay: grid;\n    grid-template-columns: repeat(auto-fill, minmax(100px, 1fr));\n    gap: 0.75rem;\n    margin-top: 1rem;\n\x7d\n.perf-item \x7b\n    background: #fff;\n    border: 1px solid var(--border);\n    padding: 0.5rem;\n    border-radius: 0.5rem;\n    text-align: center;\n\x7d\n.perf-label \x7b font-size: 0.7rem;" ++
  " color: var(--text-light); margin-bottom: 0.25rem; \x7d\n.perf-value \x7b font-weight: 700; font-size: 0.9rem; \x7d\n\n/* Toast Notification */\n.toast \x7b\n    position: fixed;\n    bottom: 20px;\n    left: 50%;\n    transform: translateX(-50%) translateY(100px);\n    background: white;\n    border-left: 4px solid var(" ++
  "--success);\n    padding: 1rem 1.5rem;\n    border-radius: 0.5rem;\n    box-shadow: 0 10px 15px -3px rgb(0 0 0 / 0.1);\n    display: flex;\n    align-items: center;\n    gap: 0.75rem;\n    transition: transform 0.3s cubic-bezier(0.175, 0.885, 0.32, 1.275);\n    opacity: 0;\n    z-index: 1000;\n\x7d\n\n.toast.show " ++
  "\x7b\n    transform: translateX(-50%) translateY(0);\n    opacity: 1;\n\x7d\n\n/* Spinner */\n.spinner \x7b\n    display: inline-block;\n    width: 14px;\n    height: 14px;\n    border: 2px solid currentColor;\n    border-right-color: transparent;\n    border-radius: 50%;\n    animation: spin 0.75s linear infinite;\n    v" ++
  "ertical-align: middle;\n\x7d\n\n@keyframes spin \x7b\n    to \x7b transform: rotate(360deg); \x7d\n\x7d\n"

/-- Model of `render_base` from `web/templates.py` (the base HTML page
with the given title and content interpolated into the f-string). -/
def render_base (title content extra_css extra_js active_nav : String) : String :=
  let nav_overview_active := if active_nav = "overview" then " active" else ""
  let nav_history_active := if active_nav = "history" then " active" else ""
  let nav_market_active := if active_nav = "market" then " active" else ""
  let nav_config_active := if active_nav = "config" then " active" else ""
  let nav_status_active := if active_nav = "status" then " active" else ""
  "<!doctype html>\n<html lang=\"zh-CN\">\n<head>\n  <meta charset=\"utf-8\" />\n  <meta name=\"viewport\" content=\"width=device-width, initial-scale=1\" />\n  <title>" ++ htmlEscape title ++
    "</title>\n  <style>" ++ BASE_CSS ++ extra_css ++
    "</style>\n</head>\n<body>\n  <nav class=\"navbar\">\n    <a href=\"/\" class=\"navbar-brand\">📊 智能基金分析</a>\n    <ul class=\"navbar-nav\">\n      <li><a href=\"/\" class=\"nav-link" ++ nav_overview_active ++
    "\">基金概览</a></li>\n      <li><a href=\"/history\" class=\"nav-link" ++ nav_history_active ++
    "\">分析历史</a></li>\n      <li><a href=\"/market_review\" class=\"nav-link" ++ nav_market_active ++
    "\">综合分析</a></li>\n      <li><a href=\"/config\" class=\"nav-link" ++ nav_config_active ++
    "\">配置管理</a></li>\n      <li><a href=\"/system/status\" class=\"nav-link" ++ nav_status_active ++
    "\">系统状态</a></li>\n    </ul>\n  </nav>\n  <div class=\"main-content\">\n    " ++ content ++
    "\n  </div>\n  " ++ extra_js ++
    "\n</body>\n</html>"

/-- The `details` paragraph of `render_error_page` (empty for a falsy
`details`, i.e. `None` or the empty string). -/
def errorDetailsHtml (details : Option String) : String :=
  match details with
  | some d =>
    if d = "" then ""
    else "<p class=\x27text-muted\x27>" ++ htmlEscape d ++ "</p>"
  | none => ""

/-- Model of `render_error_page` from `web/templates.py`: the error `content`
block rendered through `render_base` and UTF-8 encoded. -/
def render_error_page (status_code : Nat) (message : String) (details : Option String) : Bytes :=
  let details_html := errorDetailsHtml details
  let content :=
    "<div class=\"container\" style=\"text-align: center;\"><h2>😵 " ++ natReprStr status_code ++
      "</h2><p>" ++ htmlEscape message ++ "</p>" ++ details_html ++
      "<a href=\"/\" class=\"btn btn-outline\" style=\"margin-top: 1rem;\">← 返回首页</a></div>"
  utf8Encode (render_base ("错误 " ++ natReprStr status_code) content "" "" "overview")

/-! ### Model of `web/router.py` -/

/-- Multi-valued query/form data handed to handlers. -/
abbrev MultiMap := List (String × List String)

/-- Handlers take the query or form multi-map and either return a `Response`
or raise (modelled as `Except.error` carrying `str(e)`). -/
abbrev RouteHandler := MultiMap → Except String Response

/-- A registered route (the `Route` class); its constructor upper-cases
the method. -/
structure Route where
  path : String
  method : String
  handler : RouteHandler
  description : String

/-- Model of `Route.__init__`. -/
def Route.init (path method : String) (handler : RouteHandler) (description : String) : Route :=
  ⟨path, pyUpper method, handler, description⟩

/-- The `Router`: a dict from path to a dict from method to `Route`. -/
structure Router where
  _routes : List (String × List (String × Route))

/-- A freshly constructed `Router` (its `__init__`). -/
def Router.empty : Router := ⟨[]⟩

/-- Model of `Router.register`: upper-case the method, create the path
entry if needed, then store (overwriting) the `Route` under the method. -/
def Router.register (r : Router) (path method : String) (handler : RouteHandler)
    (description : String) : Router :=
  let method := pyUpper method
  let forPath := (dictGet r._routes path).getD []
  ⟨dictSet r._routes path (dictSet forPath method (Route.init path method handler description))⟩

/-- Model of `Router.match`: upper-case the method and do the two dict
lookups (named `match'` because `match` is reserved in Lean). -/
def Router.match' (r : Router) (path method : String) : Option Route :=
  let method := pyUpper method
  match dictGet r._routes path with
  | none => none
  | some forPath => dictGet forPath method

/-- Python string `<`: lexicographic comparison by code points. -/
def strLtB : List Char → List Char → Bool
  | [], [] => false
  | [], _ :: _ => true
  | _ :: _, [] => false
  | a :: as, b :: bs => if a < b then true else if b < a then false else strLtB as bs

/-- The comparison used by `Router.list_routes`: Python tuple comparison of
the sort keys `(path, method)` (`sorted` with `key=lambda x: (x[1], x[0])`),
as a boolean `≤`. -/
def routeLe (a b : String × String × String) : Bool :=
  strLtB a.2.1.data b.2.1.data || (a.2.1 == b.2.1 && !strLtB b.1.data a.1.data)

/-- The unsorted `(method, path, description)` triples of the route table,
in insertion order. -/
def routeEntries (r : Router) : List (String × String × String) :=
  r._routes.flatMap (fun pm => pm.2.map (fun mr => (mr.1, pm.1, mr.2.description)))

/-- Model of `Router.list_routes`. -/
def Router.list_routes (r : Router) : List (String × String × String) :=
  (routeEntries r).mergeSort routeLe

/-- Model of `Router._send_not_found`: 404 page for a missing path. -/
def Router._send_not_found (path : String) : List WireItem :=
  (HtmlResponse (render_error_page 404 "页面未找到" (some ("路径 " ++ path ++ " 不存在"))) 404).send

/-- Model of `Router._send_error`: 500 page carrying the error message. -/
def Router._send_error (message : String) : List WireItem :=
  (HtmlResponse (render_error_page 500 "服务器内部错误" (some message)) 500).send

/-- Everything a (GET-style) dispatch writes: the wire items sent to the
client and the log lines emitted. -/
structure DispatchOut where
  wire : List WireItem
  logs : List String
deriving DecidableEq

/-- The path used by `Router.dispatch`: `urlparse(target).path or "/"`. -/
def requestPath (target : String) : String :=
  let p := (urlparse target).path
  if p = "" then "/" else p

/-- The decoded query multi-map used by `Router.dispatch`. -/
def requestQuery (target : String) : MultiMap :=
  parse_qs (urlparse target).query

/-- Model of `Router.dispatch`: parse path and query, match the route,
404 on no match, otherwise run the handler; a raising handler is logged
and turned into the 500 error page, never propagated. -/
def Router.dispatch (r : Router) (target : String) (method : String) : DispatchOut :=
  let path := requestPath target
  let query := requestQuery target
  match r.match' path method with
  | none => ⟨Router._send_not_found path, []⟩
  | some route =>
    match route.handler query with
    | Except.ok response => ⟨response.send, []⟩
    | Except.error e =>
      ⟨Router._send_error e, ["[Router] 失败: " ++ method ++ " " ++ path ++ " - " ++ e]⟩

/-- Result of the external webhook service (`bot.handler.handle_webhook`),
when it does not raise. -/
structure WebhookResult where
  body : Json
  status_code : Nat

/-- The externally owned webhook-handling service: takes platform, headers
and raw body; may raise. -/
abbrev WebhookService := String → List (String × String) → Bytes → Except String WebhookResult

/-- The request-side environment of a POST dispatch: the case-preserving
header pairs, the readable body stream (`rfile`), and the webhook service. -/
structure PostEnv where
  headers : List (String × String)
  rfile : Bytes
  service : WebhookService

/-- Case-insensitive header lookup (Python `email.message.Message.get`). -/
def headersGet (hs : List (String × String)) (name : String) : Option String :=
  (hs.find? (fun kv => pyLower kv.1 == pyLower name)).map (fun kv => kv.2)

/-- The dict comprehension over `headers.items()` in `_dispatch_bot_webhook`
(case-sensitive keys, later duplicates overwrite in place). -/
def headersDict (hs : List (String × String)) : List (String × String) :=
  hs.foldl (fun d kv => dictSet d kv.1 kv.2) []

/-- Model of `rfile.read(n)` on a buffered stream holding `stream`:
`-1` reads everything, another negative size raises, otherwise up to `n`
bytes are returned. -/
def rfileRead (stream : Bytes) (n : Int) : Except String Bytes :=
  if n < 0 then
    if n = -1 then Except.ok stream else Except.error "invalid number of bytes to read"
  else Except.ok (stream.take n.toNat)

/-- The body-reading prefix of `Router.dispatch_post`:
`int(headers.get("Content-Length", "0") or "0")` followed by
`rfile.read(content_length)`; a non-numeric header makes `int` raise. -/
def readBody (env : PostEnv) : Except String Bytes := do
  let raw := (headersGet env.headers "Content-Length").getD "0"
  let raw := if raw = "" then "0" else raw
  let n ← pyInt raw
  rfileRead env.rfile n

/-- What `BotHandler.handle_webhook` produces: the response it returns,
the log lines, and the calls it made to the external webhook service. -/
structure BotOut where
  response : Response
  logs : List String
  calls : List (String × List (String × String) × Bytes)

/-- Model of `BotHandler.handle_webhook` from `web/handlers.py`: call the
external service; wrap its result as a JSON response with its status code;
if it raises, log and return the 500 JSON error object. -/
def BotHandler.handle_webhook (platform : String) (form_data : MultiMap)
    (headers : List (String × String)) (body : Bytes) (svc : WebhookService) : BotOut :=
  match svc platform headers body with
  | Except.ok wr => ⟨JsonResponse wr.body wr.status_code, [], [(platform, headers, body)]⟩
  | Except.error e =>
    ⟨JsonResponse (Json.obj [("error", Json.str e)]) 500,
     ["[BotHandler] 失败: " ++ e], [(platform, headers, body)]⟩

/-- Everything a POST dispatch produces: wire items, log lines, the calls
made to the webhook service, and the raw body bytes read before routing. -/
structure PostOut where
  wire : List WireItem
  logs : List String
  webhookCalls : List (String × List (String × String) × Bytes)
  rawBody : Bytes
deriving DecidableEq

/-- Model of `Router._dispatch_bot_webhook`: strip slashes, split on `/`;
fewer than two segments is a 404 with no external call; otherwise forward
`(platform, headers, body)` to `BotHandler.handle_webhook` and send its
response. -/
def Router._dispatch_bot_webhook (path : String) (body : Bytes) (env : PostEnv) : PostOut :=
  let parts := pySplitStr (pyStripChar path '/') '/'
  match parts with
  | _ :: platform :: _ =>
    let headers := headersDict env.headers
    let out := BotHandler.handle_webhook platform [] headers body env.service
    ⟨out.response.send, out.logs, out.calls, body⟩
  | _ => ⟨Router._send_not_found path, [], [], body⟩

/-- Model of `Router.dispatch_post`: read `Content-Length` bytes of body
(propagating an `int` failure), branch to the webhook sub-dispatcher on
the `/bot/` prefix, otherwise decode the form body and route as for GET,
with handler failures logged and turned into the 500 page. -/
def Router.dispatch_post (r : Router) (target : String) (env : PostEnv) :
    Except String PostOut := do
  let path := (urlparse target).path
  let raw_body_bytes ← readBody env
  if pyStartsWith path "/bot/" then
    return Router._dispatch_bot_webhook path raw_body_bytes env
  else
    let form_data := parse_qs ⟨utf8DecodeReplace raw_body_bytes⟩
    match r.match' path "POST" with
    | none => return ⟨Router._send_not_found path, [], [], raw_body_bytes⟩
    | some route =>
      match route.handler form_data with
      | Except.ok response => return ⟨response.send, [], [], raw_body_bytes⟩
      | Except.error e =>
        return ⟨Router._send_error e, ["[Router] POST失败: " ++ path ++ " - " ++ e], [], raw_body_bytes⟩

/-! ### Observation helpers used only in theorem statements -/

/-- The status of the first status line of a wire transcript. -/
def wireStatus : List WireItem → Option Nat
  | WireItem.statusLine s :: _ => some s
  | _ => none

/-- The value of the first Content-Type header of a wire transcript. -/
def wireContentType (w : List WireItem) : Option String :=
  (w.filterMap (fun item =>
    match item with
    | WireItem.header n v => if n = "Content-Type" then some v else none
    | _ => none)).head?

/-- The body bytes of a wire transcript (concatenation of all body items). -/
def wireBody (w : List WireItem) : Bytes :=
  (w.filterMap (fun item =>
    match item with
    | WireItem.bodyBytes b => some b
    | _ => none)).flatten

/-- One `register` call, for quantifying over route tables built through
the registration API. -/
structure Registration where
  path : String
  method : String
  handler : RouteHandler
  description : String

/-- The router obtained by replaying a sequence of `register` calls on a
fresh `Router`. -/
def applyRegs (regs : List Registration) : Router :=
  regs.foldl (fun r g => r.register g.path g.method g.handler g.description) Router.empty

/-! ### The JSON grammar, as an inductive text-denotes-value relation

These relations follow the ECMA-404 / RFC 8259 grammar: `JWs` is
insignificant whitespace, `SChar` relates the encoded form of one string
character to the character, `IsIntLit` is the integer subset of the number
production, and `JValue`/`JElems`/`JMembers` are the value, array-elements
and object-members productions (elements and member values carry their
surrounding whitespace). `JText s d` states that `s` is a complete JSON
text denoting the value `d`. -/

/-- JSON insignificant whitespace. -/
def JWs (cs : List Char) : Prop :=
  ∀ c ∈ cs, c = ' ' ∨ c = '\t' ∨ c = '\n' ∨ c = '\r'

/-- One character of a JSON string literal: its encoded form and the
character it denotes. -/
inductive SChar : List Char → Char → Prop where
  | plain (c : Char) : c ≠ '\"' → c ≠ '\\' → 32 ≤ c.toNat → SChar [c] c
  | quote : SChar ['\\', '\"'] '\"'
  | backslash : SChar ['\\', '\\'] '\\'
  | slash : SChar ['\\', '/'] '/'
  | bsp : SChar ['\\', 'b'] (Char.ofNat 8)
  | ff : SChar ['\\', 'f'] (Char.ofNat 12)
  | nl : SChar ['\\', 'n'] '\n'
  | cr : SChar ['\\', 'r'] '\r'
  | tab : SChar ['\\', 't'] '\t'
  | uni (h1 h2 h3 h4 : Char) (c : Char) :
      isHexDigitB h1 = true → isHexDigitB h2 = true →
      isHexDigitB h3 = true → isHexDigitB h4 = true →
      ((hexVal h1 * 16 + hexVal h2) * 16 + hexVal h3) * 16 + hexVal h4 = c.toNat →
      SChar ['\\', 'u', h1, h2, h3, h4] c

/-- The body of a JSON string literal and the character list it denotes. -/
inductive StrBody : List Char → List Char → Prop where
  | nil : StrBody [] []
  | cons {e : List Char} {c : Char} {es cs : List Char} :
      SChar e c → StrBody es cs → StrBody (e ++ es) (c :: cs)

/-- No leading zero: a digit sequence starting with `0` must be exactly `0`. -/
def NoLeadZero (ds : List Char) : Prop := ds.head? = some '0' → ds = ['0']

/-- The integer subset of the JSON number production, denoting `n`. -/
def IsIntLit (cs : List Char) (n : Int) : Prop :=
  (0 ≤ n ∧ cs ≠ [] ∧ (∀ c ∈ cs, c.isDigit = true) ∧ NoLeadZero cs ∧
    (digitsToNat cs : Int) = n) ∨
  (n < 0 ∧ ∃ ds, cs = '-' :: ds ∧ ds ≠ [] ∧ (∀ c ∈ ds, c.isDigit = true) ∧ NoLeadZero ds ∧
    (digitsToNat ds : Int) = -n)

mutual

/-- A JSON value token (with no surrounding whitespace) denoting `d`. -/
inductive JValue : List Char → Json → Prop where
  | null : JValue ['n', 'u', 'l', 'l'] Json.null
  | tru : JValue ['t', 'r', 'u', 'e'] (Json.bool true)
  | fls : JValue ['f', 'a', 'l', 's', 'e'] (Json.bool false)
  | num {cs : List Char} {n : Int} : IsIntLit cs n → JValue cs (Json.num n)
  | str {body : List Char} {s : String} :
      StrBody body s.data → JValue ('\"' :: body ++ ['\"']) (Json.str s)
  | arrNil {ws : List Char} : JWs ws → JValue ('[' :: ws ++ [']']) (Json.arr [])
  | arr {cs : List Char} {xs : List Json} :
      JElems cs xs → JValue ('[' :: cs ++ [']']) (Json.arr xs)
  | objNil {ws : List Char} : JWs ws → JValue (lbrace :: ws ++ [rbrace]) (Json.obj [])
  | obj {cs : List Char} {kvs : List (String × Json)} :
      JMembers cs kvs → JValue (lbrace :: cs ++ [rbrace]) (Json.obj kvs)

/-- A nonempty comma-separated list of whitespace-padded JSON values. -/
inductive JElems : List Char → List Json → Prop where
  | single {w1 v w2 : List Char} {x : Json} :
      JWs w1 → JValue v x → JWs w2 → JElems (w1 ++ v ++ w2) [x]
  | cons {w1 v w2 rest : List Char} {x : Json} {xs : List Json} :
      JWs w1 → JValue v x → JWs w2 → JElems rest xs →
      JElems (w1 ++ v ++ w2 ++ ',' :: rest) (x :: xs)

/-- A nonempty comma-separated list of JSON object members
(`ws string ws : element`). -/
inductive JMembers : List Char → List (String × Json) → Prop where
  | single {w1 kbody w2 w3 v w4 : List Char} {k : String} {x : Json} :
      JWs w1 → StrBody kbody k.data → JWs w2 → JWs w3 → JValue v x → JWs w4 →
      JMembers (w1 ++ '\"' :: kbody ++ '\"' :: w2 ++ ':' :: w3 ++ v ++ w4) [(k, x)]
  | cons {w1 kbody w2 w3 v w4 rest : List Char} {k : String} {x : Json}
      {kvs : List (String × Json)} :
      JWs w1 → StrBody kbody k.data → JWs w2 → JWs w3 → JValue v x → JWs w4 →
      JMembers rest kvs →
      JMembers (w1 ++ '\"' :: kbody ++ '\"' :: w2 ++ ':' :: w3 ++ v ++ w4 ++ ',' :: rest)
        ((k, x) :: kvs)

end

/-- A complete JSON text (`ws value ws`) denoting `d`. -/
def JText (cs : List Char) (d : Json) : Prop :=
  ∃ w1 v w2, JWs w1 ∧ JValue v d ∧ JWs w2 ∧ cs = w1 ++ v ++ w2

/-! ## Supporting lemmas -/

theorem toNat_ofNat_lt {n : Nat} (h : n < 55296) : (Char.ofNat n).toNat = n := by
  have hv : n.isValidChar := Or.inl h
  simp [Char.ofNat, hv, Char.ofNatAux, Char.toNat, UInt32.toNat]

theorem dictGet_dictSet_self {α : Type} (d : List (String × α)) (k : String) (v : α) :
    dictGet (dictSet d k v) k = some v := by
  induction d with
  | nil => simp [dictSet, dictGet]
  | cons kv rest ih =>
    by_cases h : kv.1 = k
    · simp [dictSet, dictGet, h]
    · simp [dictSet, dictGet, h, ih]

theorem dictGet_dictSet_ne {α : Type} (d : List (String × α)) (k k' : String) (v : α)
    (h : k ≠ k') : dictGet (dictSet d k v) k' = dictGet d k' := by
  induction d with
  | nil => simp [dictSet, dictGet, h]
  | cons kv rest ih =>
    by_cases hk : kv.1 = k
    · simp [dictSet, dictGet, hk, h, ih]
    · simp [dictSet, dictGet, hk, ih]

theorem pyUpperChar_idem (c : Char) : pyUpperChar (pyUpperChar c) = pyUpperChar c := by
  unfold pyUpperChar
  by_cases h : 97 ≤ c.toNat ∧ c.toNat ≤ 122
  · rw [if_pos h]
    have h2 : (Char.ofNat (c.toNat - 32)).toNat = c.toNat - 32 := toNat_ofNat_lt (by omega)
    rw [if_neg (by rw [h2]; omega)]
  · rw [if_neg h, if_neg h]

theorem pyUpper_idem (s : String) : pyUpper (pyUpper s) = pyUpper s := by
  cases s with
  | mk data =>
    simp only [pyUpper, List.map_map]
    exact congrArg String.mk (List.map_congr_left fun c _ => pyUpperChar_idem c)

theorem match'_register_self (r : Router) (p m : String) (h : RouteHandler) (d : String) :
    (r.register p m h d).match' p m = some (Route.init p (pyUpper m) h d) := by
  unfold Router.register Router.match'
  simp [dictGet_dictSet_self]

theorem match'_register_other (r : Router) (q mm p m : String) (h : RouteHandler) (d : String)
    (hne : ¬(q = p ∧ pyUpper mm = pyUpper m)) :
    (r.register q mm h d).match' p m = r.match' p m := by
  unfold Router.register Router.match'
  by_cases hq : q = p
  · subst hq
    have hm : pyUpper mm ≠ pyUpper m := fun hc => hne ⟨rfl, hc⟩
    rw [dictGet_dictSet_self]
    cases hfp : dictGet r._routes q with
    | none => simp [dictGet_dictSet_ne _ _ _ _ hm, dictGet, hm]
    | some fp => simp [dictGet_dictSet_ne _ _ _ _ hm]
  · rw [dictGet_dictSet_ne _ _ _ _ hq]

theorem match'_applyRegs_aux (regs : List Registration) (r : Router) (p m : String)
    (hr : r.match' p m = none)
    (h : ∀ g ∈ regs, ¬(g.path = p ∧ pyUpper g.method = pyUpper m)) :
    (regs.foldl (fun r g => r.register g.path g.method g.handler g.description) r).match' p m
      = none := by
  induction regs generalizing r with
  | nil => simpa using hr
  | cons g rest ih =>
    simp only [List.foldl_cons]
    exact ih _ (by rw [match'_register_other _ _ _ _ _ _ _ (h g (by simp))]; exact hr)
      (fun g' hg' => h g' (by simp [hg']))

theorem match'_applyRegs_none (regs : List Registration) (p m : String)
    (h : ∀ g ∈ regs, ¬(g.path = p ∧ pyUpper g.method = pyUpper m)) :
    (applyRegs regs).match' p m = none :=
  match'_applyRegs_aux regs Router.empty p m (by rfl) h

/-! ## C4: last registration wins -/

/-- C4: for every path `p`, method `m` and handlers `h1`, `h2`, after
`register(p, m, h1)` followed by `register(p, m, h2)` on any router state,
`match(p, m)` returns the route holding `h2` (the second registration
replaces the first without error). -/
theorem c4_register_overwrite (r : Router) (p m : String) (h1 h2 : RouteHandler)
    (d1 d2 : String) :
    ∃ rt, ((r.register p m h1 d1).register p m h2 d2).match' p m = some rt ∧
      rt.handler = h2 ∧ rt.path = p ∧ rt.method = pyUpper m ∧ rt.description = d2 := by
  refine ⟨Route.init p (pyUpper m) h2 d2, match'_register_self _ _ _ _ _, rfl, rfl, ?_, rfl⟩
  simp [Route.init, pyUpper_idem]

/-- C4 witness at a concrete instance. -/
theorem c4_register_overwrite_witness :
    ∃ rt, Router.match' ((Router.empty.register "/a" "GET" (fun _ => Except.error "one")
        "d1").register "/a" "GET" (fun _ => Except.error "two") "d2") "/a" "GET" = some rt ∧
      rt.handler = (fun _ => Except.error "two") ∧ rt.path = "/a" ∧
      rt.method = pyUpper "GET" ∧ rt.description = "d2" :=
  c4_register_overwrite Router.empty "/a" "GET" (fun _ => Except.error "one")
    (fun _ => Except.error "two") "d1" "d2"

/-! ## C5: unmatched (path, method) gives 404 -/

/-- C5: for every (path, method) pair never registered in the route table,
`match` returns none, and dispatching a request for that pair produces a
response with status 404 and markup (text/html) content-type. -/
theorem c5_unregistered_404 (regs : List Registration) (target m : String)
    (h : ∀ g ∈ regs, ¬(g.path = requestPath target ∧ pyUpper g.method = pyUpper m)) :
    (applyRegs regs).match' (requestPath target) m = none ∧
    (applyRegs regs).dispatch target m = ⟨Router._send_not_found (requestPath target), []⟩ ∧
    wireStatus (Router._send_not_found (requestPath target)) = some 404 ∧
    wireContentType (Router._send_not_found (requestPath target)) =
      some "text/html; charset=utf-8" := by
  have hm := match'_applyRegs_none regs (requestPath target) m h
  refine ⟨hm, ?_, rfl, rfl⟩
  simp [Router.dispatch, hm]

/-- C5 witness: the empty route table and the pair (`/nope`, GET). -/
theorem c5_unregistered_404_witness :
    (applyRegs []).match' (requestPath "/nope") "GET" = none ∧
    (applyRegs []).dispatch "/nope" "GET" = ⟨Router._send_not_found (requestPath "/nope"), []⟩ ∧
    wireStatus (Router._send_not_found (requestPath "/nope")) = some 404 ∧
    wireContentType (Router._send_not_found (requestPath "/nope")) =
      some "text/html; charset=utf-8" :=
  c5_unregistered_404 [] "/nope" "GET" (by simp)

/-! ## C6: POST `/bot` is 404 without any webhook call -/

/-- C6: dispatching POST with path `/bot` (which does not carry a platform
segment) produces a 404 response and never invokes the external
webhook-handling service, provided no route is registered for
(`/bot`, POST). -/
theorem c6_bot_no_platform (r : Router) (target : String) (env : PostEnv) (body : Bytes)
    (hpath : (urlparse target).path = "/bot")
    (hread : readBody env = Except.ok body)
    (hmatch : r.match' "/bot" "POST" = none) :
    r.dispatch_post target env =
      Except.ok ⟨Router._send_not_found "/bot", [], [], body⟩ ∧
    wireStatus (Router._send_not_found "/bot") = some 404 := by
  refine ⟨?_, rfl⟩
  unfold Router.dispatch_post
  rw [hpath, hread]
  have hsw : pyStartsWith "/bot" "/bot/" = false := by decide
  simp [hsw, hmatch, bind, Except.bind, pure, Except.pure]

/-- C6 witness: the empty router, target `/bot`, an empty request. -/
theorem c6_bot_no_platform_witness :
    Router.empty.dispatch_post "/bot"
        ⟨[], [], fun _ _ _ => Except.error "service"⟩ =
      Except.ok ⟨Router._send_not_found "/bot", [], [], []⟩ ∧
    wireStatus (Router._send_not_found "/bot") = some 404 :=
  c6_bot_no_platform Router.empty "/bot" ⟨[], [], fun _ _ _ => Except.error "service"⟩ []
    (by decide) rfl rfl

/-! ## C9: blank-valued query/form keys are dropped -/

theorem parseField_shape {f : String} {p : String × String} (h : parseField f = some p) :
    ∃ nm v, splitOnceStr f '=' = some (nm, v) ∧ v ≠ "" ∧ p.1 = unquote_plus nm := by
  unfold parseField at h
  by_cases hf : f = ""
  · rw [if_pos hf] at h; cases h
  · rw [if_neg hf] at h
    cases hs : splitOnceStr f '=' with
    | none => rw [hs] at h; cases h
    | some nv =>
      obtain ⟨nm, v⟩ := nv
      rw [hs] at h
      dsimp only at h
      by_cases hv : v = ""
      · rw [if_pos hv] at h
        cases h
      · rw [if_neg hv] at h
        cases h
        exact ⟨nm, v, rfl, hv, rfl⟩

theorem mem_parse_qsl {qs : String} {p : String × String} (h : p ∈ parse_qsl qs) :
    ∃ f ∈ pySplitStr qs '&', parseField f = some p := by
  unfold parse_qsl at h
  exact List.mem_filterMap.mp h

theorem dictGet_multiAdd_ne (d : List (String × List String)) (k k' v : String)
    (h : k ≠ k') : dictGet (multiAdd d k v) k' = dictGet d k' := by
  induction d with
  | nil => simp [multiAdd, dictGet, h]
  | cons kv rest ih =>
    by_cases hk : kv.1 = k
    · simp [multiAdd, dictGet, hk, h, ih]
    · simp [multiAdd, dictGet, hk, ih]

theorem dictGet_foldl_multiAdd_none (l : List (String × String))
    (d0 : List (String × List String)) (k : String)
    (h0 : dictGet d0 k = none) (h : ∀ kv ∈ l, kv.1 ≠ k) :
    dictGet (l.foldl (fun d kv => multiAdd d kv.1 kv.2) d0) k = none := by
  induction l generalizing d0 with
  | nil => simpa using h0
  | cons kv rest ih =>
    simp only [List.foldl_cons]
    exact ih _ (by rw [dictGet_multiAdd_ne _ _ _ _ (h kv (by simp))]; exact h0)
      (fun kv' hkv' => h kv' (by simp [hkv']))

/-- C9: query-string and form-body parsing drops keys whose value is empty:
whenever every `&`-separated field of the query string whose (decoded) name
is `k` has an empty raw value — in particular when the string contains
`k=` and no other assignment to `k` — the resulting multi-map contains no
entry for `k` at all (the handler sees the key as missing, not as mapped
to an empty string). -/
theorem c9_blank_values_dropped (qs k : String)
    (h : ∀ f ∈ pySplitStr qs '&', ∀ nm v, splitOnceStr f '=' = some (nm, v) →
        unquote_plus nm = k → v = "") :
    dictGet (parse_qs qs) k = none := by
  unfold parse_qs
  refine dictGet_foldl_multiAdd_none (parse_qsl qs) [] k rfl ?_
  intro kv hkv hk
  obtain ⟨f, hf, hpf⟩ := mem_parse_qsl hkv
  obtain ⟨nm, v, hs, hv, hkey⟩ := parseField_shape hpf
  exact hv (h f hf nm v hs (by rw [← hkey]; exact hk))

/-- C9 witness: the query string `k=` parses to a multi-map with no entry
for `k`. -/
theorem c9_blank_values_dropped_witness :
    (∀ f ∈ pySplitStr "k=" '&', ∀ nm v, splitOnceStr f '=' = some (nm, v) →
        unquote_plus nm = "k" → v = "") ∧
    dictGet (parse_qs "k=") "k" = none := by
  have h : ∀ f ∈ pySplitStr "k=" '&', ∀ nm v, splitOnceStr f '=' = some (nm, v) →
      unquote_plus nm = "k" → v = "" := by
    intro f hf nm v hs _
    have hf' : f = "k=" := by simpa [pySplitStr, pySplit] using hf
    subst hf'
    rw [show splitOnceStr "k=" '=' = some ("k", "") from rfl] at hs
    cases hs
    rfl
  exact ⟨h, c9_blank_values_dropped "k=" "k" h⟩

/-! ## C10: method lookup is case-insensitive -/

theorem mem_dictSet {α : Type} {d : List (String × α)} {k : String} {v : α} {x : String × α}
    (h : x ∈ dictSet d k v) : x = (k, v) ∨ x ∈ d := by
  induction d with
  | nil => simpa [dictSet] using h
  | cons kv rest ih =>
    by_cases hk : kv.1 = k
    · simp only [dictSet, if_pos hk, List.mem_cons] at h
      rcases h with h | h
      · exact Or.inl h
      · exact Or.inr (List.mem_cons_of_mem _ h)
    · simp only [dictSet, if_neg hk, List.mem_cons] at h
      rcases h with h | h
      · exact Or.inr (h ▸ List.mem_cons_self _ _)
      · rcases ih h with h' | h'
        · exact Or.inl h'
        · exact Or.inr (List.mem_cons_of_mem _ h')

theorem mem_of_dictGet {α : Type} {d : List (String × α)} {k : String} {v : α}
    (h : dictGet d k = some v) : (k, v) ∈ d := by
  induction d with
  | nil => cases h
  | cons kv rest ih =>
    by_cases hk : kv.1 = k
    · simp only [dictGet, if_pos hk] at h
      cases h
      exact hk ▸ List.mem_cons_self _ _
    · simp only [dictGet, if_neg hk] at h
      exact List.mem_cons_of_mem _ (ih h)

theorem register_preserves_upper (r : Router)
    (hr : ∀ pm ∈ r._routes, ∀ mr ∈ pm.2, mr.1 = mr.2.method ∧ pyUpper mr.2.method = mr.2.method)
    (p m : String) (hd : RouteHandler) (d : String) :
    ∀ pm ∈ (r.register p m hd d)._routes, ∀ mr ∈ pm.2,
      mr.1 = mr.2.method ∧ pyUpper mr.2.method = mr.2.method := by
  intro pm hpm mr hmr
  unfold Router.register at hpm
  rcases mem_dictSet hpm with he | hin
  · subst he
    rcases mem_dictSet hmr with he2 | hin2
    · subst he2
      constructor
      · simp [Route.init, pyUpper_idem]
      · simp [Route.init, pyUpper_idem]
    · cases hfp : dictGet r._routes p with
      | none => rw [hfp] at hin2; cases hin2
      | some fp =>
        rw [hfp] at hin2
        exact hr (p, fp) (mem_of_dictGet hfp) mr hin2
  · exact hr pm hin mr hmr

theorem applyRegs_upper_aux (regs : List Registration) (r : Router)
    (hr : ∀ pm ∈ r._routes, ∀ mr ∈ pm.2, mr.1 = mr.2.method ∧ pyUpper mr.2.method = mr.2.method) :
    ∀ pm ∈ (regs.foldl
        (fun r g => r.register g.path g.method g.handler g.description) r)._routes,
      ∀ mr ∈ pm.2, mr.1 = mr.2.method ∧ pyUpper mr.2.method = mr.2.method := by
  induction regs generalizing r with
  | nil => simpa using hr
  | cons g rest ih =>
    simp only [List.foldl_cons]
    exact ih _ (register_preserves_upper r hr g.path g.method g.handler g.description)

/-- C10: method lookup is case-insensitive: `match(p, m)` equals
`match(p, uppercase(m))` on every router state, and on every router state
built through `register` each stored route sits under its own upper-cased
method field. -/
theorem c10_method_normalization :
    (∀ (r : Router) (p m : String), r.match' p m = r.match' p (pyUpper m)) ∧
    (∀ regs : List Registration, ∀ pm ∈ (applyRegs regs)._routes, ∀ mr ∈ pm.2,
      mr.1 = mr.2.method ∧ pyUpper mr.2.method = mr.2.method) := by
  constructor
  · intro r p m
    unfold Router.match'
    rw [pyUpper_idem]
  · intro regs
    exact applyRegs_upper_aux regs Router.empty (by intro pm hpm; cases hpm)

/-- C10 witness: a route registered with method `get` is stored under the
upper-cased method `GET`, equal to its own method field, and lookup with
`GET` agrees with lookup with `pyUpper "GET"`. -/
theorem c10_method_normalization_witness :
    Router.match' (Router.empty.register "/a" "get" (fun _ => Except.error "h") "")
        "/a" "GET"
      = Router.match' (Router.empty.register "/a" "get" (fun _ => Except.error "h") "")
          "/a" (pyUpper "GET") ∧
    (("GET", Route.init "/a" (pyUpper "get") (fun _ => Except.error "h") "") :
        String × Route).1
      = (Route.init "/a" (pyUpper "get") (fun _ => Except.error "h") "").method ∧
    pyUpper (Route.init "/a" (pyUpper "get") (fun _ => Except.error "h") "").method
      = (Route.init "/a" (pyUpper "get") (fun _ => Except.error "h") "").method := by
  refine ⟨c10_method_normalization.1 _ "/a" "GET", ?_⟩
  have h2 := c10_method_normalization.2 [⟨"/a", "get", (fun _ => Except.error "h"), ""⟩]
    ("/a", [("GET", Route.init "/a" (pyUpper "get") (fun _ => Except.error "h") "")])
    (List.Mem.head _)
    ("GET", Route.init "/a" (pyUpper "get") (fun _ => Except.error "h") "")
    (List.Mem.head _)
  exact h2

/-! ## C1: body read and Content-Length handling on POST dispatch -/

theorem botDispatch_rawBody (path : String) (body : Bytes) (env : PostEnv) :
    (Router._dispatch_bot_webhook path body env).rawBody = body := by
  cases hp : pySplitStr (pyStripChar path '/') '/' with
  | nil => simp [Router._dispatch_bot_webhook, hp]
  | cons a t =>
    cases t with
    | nil => simp [Router._dispatch_bot_webhook, hp]
    | cons b t2 => simp [Router._dispatch_bot_webhook, hp]

theorem dispatch_post_ok_of_readBody (r : Router) (target : String) (env : PostEnv)
    (body : Bytes) (h : readBody env = Except.ok body) :
    ∃ out, r.dispatch_post target env = Except.ok out ∧ out.rawBody = body := by
  unfold Router.dispatch_post
  rw [h]
  simp only [bind, Except.bind]
  split
  · exact ⟨_, rfl, botDispatch_rawBody _ _ _⟩
  · cases hm : Router.match' r (urlparse target).path "POST" with
    | none => exact ⟨_, rfl, rfl⟩
    | some route =>
      cases hh : route.handler (parse_qs ⟨utf8DecodeReplace body⟩) with
      | ok resp => simp only [hh]; exact ⟨_, rfl, rfl⟩
      | error e => simp only [hh]; exact ⟨_, rfl, rfl⟩

theorem readBody_of_header_none (env : PostEnv)
    (h : headersGet env.headers "Content-Length" = none) :
    readBody env = Except.ok [] := by
  unfold readBody
  rw [h]
  rfl

theorem readBody_of_pyInt_ok (env : PostEnv) (v : String) (n : Int)
    (h : headersGet env.headers "Content-Length" = some v)
    (hn : pyInt (if v = "" then "0" else v) = Except.ok n) (hn0 : 0 ≤ n) :
    readBody env = Except.ok (env.rfile.take n.toNat) := by
  unfold readBody
  rw [h]
  simp only [Option.getD_some, bind, Except.bind, hn]
  unfold rfileRead
  rw [if_neg (by omega)]

theorem readBody_of_pyInt_error (env : PostEnv) (v e : String)
    (h : headersGet env.headers "Content-Length" = some v) (hv : v ≠ "")
    (he : pyInt v = Except.error e) :
    readBody env = Except.error e := by
  unfold readBody
  rw [h]
  simp only [Option.getD_some, if_neg hv, bind, Except.bind, he]

/-- C1 (amended): on a POST dispatch the body read before routing is the
first Content-Length bytes of the request stream (exactly that many when
the stream is long enough); a missing Content-Length header (and the empty
header, through `or "0"`) yields a zero-length body; but a non-numeric
Content-Length makes `int()` raise, and the failure propagates out of the
dispatch instead of being treated as zero. -/
theorem c1_content_length (r : Router) (target : String) (env : PostEnv) :
    (headersGet env.headers "Content-Length" = none →
      ∃ out, r.dispatch_post target env = Except.ok out ∧ out.rawBody = []) ∧
    (∀ (v : String) (n : Int), headersGet env.headers "Content-Length" = some v →
      pyInt (if v = "" then "0" else v) = Except.ok n → 0 ≤ n →
      ∃ out, r.dispatch_post target env = Except.ok out ∧
        out.rawBody = env.rfile.take n.toNat ∧
        (n.toNat ≤ env.rfile.length → out.rawBody.length = n.toNat)) ∧
    (∀ (v e : String), headersGet env.headers "Content-Length" = some v → v ≠ "" →
      pyInt v = Except.error e → r.dispatch_post target env = Except.error e) := by
  refine ⟨?_, ?_, ?_⟩
  · intro h
    exact dispatch_post_ok_of_readBody r target env [] (readBody_of_header_none env h)
  · intro v n h hn hn0
    obtain ⟨out, ho, hb⟩ := dispatch_post_ok_of_readBody r target env _
      (readBody_of_pyInt_ok env v n h hn hn0)
    refine ⟨out, ho, hb, fun hle => ?_⟩
    rw [hb, List.length_take]
    omega
  · intro v e h hv he
    unfold Router.dispatch_post
    rw [readBody_of_pyInt_error env v e h hv he]
    rfl

/-- C1 counterexample: with the non-numeric header `Content-Length: abc`
the dispatch raises (`int("abc")` fails) instead of proceeding with a
zero-length body. -/
theorem c1_content_length_counterexample :
    Router.empty.dispatch_post "/update"
        ⟨[("Content-Length", "abc")], [], fun _ _ _ => Except.error "unused"⟩ =
      Except.error "invalid literal for int() with base 10: \x27abc\x27" := rfl

/-- C1 witness: a missing header reads zero bytes, `Content-Length: 2`
reads exactly two of the three available bytes, and `Content-Length: zz`
fails the dispatch. -/
theorem c1_content_length_witness :
    (∃ out, Router.empty.dispatch_post "/u"
        ⟨[], [7, 8, 9], fun _ _ _ => Except.error "unused"⟩ = Except.ok out ∧
      out.rawBody = []) ∧
    (∃ out, Router.empty.dispatch_post "/u"
        ⟨[("Content-Length", "2")], [7, 8, 9], fun _ _ _ => Except.error "unused"⟩ =
          Except.ok out ∧
      out.rawBody = [7, 8, 9].take (Int.toNat 2) ∧
      (Int.toNat 2 ≤ [7, 8, 9].length → out.rawBody.length = Int.toNat 2)) ∧
    Router.empty.dispatch_post "/u"
        ⟨[("Content-Length", "zz")], [7, 8, 9], fun _ _ _ => Except.error "unused"⟩ =
      Except.error "invalid literal for int() with base 10: \x27zz\x27" := by
  refine ⟨?_, ?_, ?_⟩
  · exact (c1_content_length Router.empty "/u"
      ⟨[], [7, 8, 9], fun _ _ _ => Except.error "unused"⟩).1 rfl
  · exact (c1_content_length Router.empty "/u"
      ⟨[("Content-Length", "2")], [7, 8, 9], fun _ _ _ => Except.error "unused"⟩).2.1
        "2" 2 rfl rfl (by decide)
  · exact (c1_content_length Router.empty "/u"
      ⟨[("Content-Length", "zz")], [7, 8, 9], fun _ _ _ => Except.error "unused"⟩).2.2
        "zz" _ rfl (by decide) rfl

/-! ## C2: webhook service failures become logged JSON 500 responses -/

/-- C2: for every POST dispatch to a path with the reserved prefix `/bot/`
whose stripped path splits into at least two segments, if the external
webhook-handling service raises, the failure is logged and the response
sent is the JSON response with status 500, content-type
`application/json; charset=utf-8` and body `{"error": message}`. -/
theorem c2_webhook_failure (r : Router) (target : String) (env : PostEnv)
    (body : Bytes) (seg0 platform : String) (restSegs : List String) (msg : String)
    (hread : readBody env = Except.ok body)
    (hbot : pyStartsWith (urlparse target).path "/bot/" = true)
    (hparts : pySplitStr (pyStripChar (urlparse target).path '/') '/'
        = seg0 :: platform :: restSegs)
    (hsvc : env.service platform (headersDict env.headers) body = Except.error msg) :
    r.dispatch_post target env = Except.ok
      ⟨(JsonResponse (Json.obj [("error", Json.str msg)]) 500).send,
       ["[BotHandler] 失败: " ++ msg],
       [(platform, headersDict env.headers, body)], body⟩ ∧
    (JsonResponse (Json.obj [("error", Json.str msg)]) 500).status = 500 ∧
    (JsonResponse (Json.obj [("error", Json.str msg)]) 500).contentType
      = "application/json; charset=utf-8" := by
  refine ⟨?_, rfl, rfl⟩
  unfold Router.dispatch_post
  rw [hread]
  simp only [bind, Except.bind, hbot, if_pos]
  unfold Router._dispatch_bot_webhook
  unfold BotHandler.handle_webhook
  rw [hparts]
  dsimp only
  rw [hsvc]
  rfl

/-- C2 witness: POST `/bot/telegram` with a service that raises `boom`. -/
theorem c2_webhook_failure_witness :
    Router.empty.dispatch_post "/bot/telegram"
        ⟨[("X-Token", "1")], [], fun _ _ _ => Except.error "boom"⟩ = Except.ok
      ⟨(JsonResponse (Json.obj [("error", Json.str "boom")]) 500).send,
       ["[BotHandler] 失败: " ++ "boom"],
       [("telegram", headersDict [("X-Token", "1")], [])], []⟩ ∧
    (JsonResponse (Json.obj [("error", Json.str "boom")]) 500).status = 500 ∧
    (JsonResponse (Json.obj [("error", Json.str "boom")]) 500).contentType
      = "application/json; charset=utf-8" :=
  c2_webhook_failure Router.empty "/bot/telegram"
    ⟨[("X-Token", "1")], [], fun _ _ _ => Except.error "boom"⟩
    [] "bot" "telegram" [] "boom" rfl (by decide) (by decide) rfl

/-! ## C8: list_routes returns the routes sorted by (path, method) -/

theorem char_eq_of_not_lt {a b : Char} (h1 : ¬ a < b) (h2 : ¬ b < a) : a = b :=
  Char.ext (UInt32.le_antisymm (Char.not_lt.mp h2) (Char.not_lt.mp h1))

theorem strLtB_iff_lex (xs ys : List Char) :
    strLtB xs ys = true ↔ List.Lex (· < ·) xs ys := by
  induction xs generalizing ys with
  | nil =>
    cases ys with
    | nil => exact iff_of_false (by simp [strLtB]) (fun h => by cases h)
    | cons b bs => exact iff_of_true (by simp [strLtB]) List.Lex.nil
  | cons a as ih =>
    cases ys with
    | nil => exact iff_of_false (by simp [strLtB]) (fun h => by cases h)
    | cons b bs =>
      by_cases hab : a < b
      · exact iff_of_true (by simp [strLtB, hab]) (List.Lex.rel hab)
      · by_cases hba : b < a
        · refine iff_of_false (by simp [strLtB, hab, hba]) ?_
          intro h
          cases h with
          | rel h' => exact hab h'
          | cons h' => exact absurd hba (lt_irrefl a)
        · have heq : a = b := char_eq_of_not_lt hab hba
          subst heq
          rw [show strLtB (a :: as) (a :: bs) = strLtB as bs by simp [strLtB], ih]
          constructor
          · exact List.Lex.cons
          · intro h
            cases h with
            | rel h' => exact absurd h' (lt_irrefl a)
            | cons h' => exact h'

theorem strLtB_iff_string_lt (s t : String) : strLtB s.data t.data = true ↔ s < t := by
  rw [strLtB_iff_lex, String.lt_iff_toList_lt]
  exact Iff.rfl

theorem strLtB_false_iff_string_le (s t : String) : strLtB t.data s.data = false ↔ s ≤ t := by
  rw [← Bool.not_eq_true, strLtB_iff_string_lt]
  exact not_lt

theorem routeLe_iff (a b : String × String × String) :
    routeLe a b = true ↔ (a.2.1 < b.2.1 ∨ (a.2.1 = b.2.1 ∧ a.1 ≤ b.1)) := by
  unfold routeLe
  rw [Bool.or_eq_true, Bool.and_eq_true, beq_iff_eq, Bool.not_eq_true',
    strLtB_iff_string_lt, strLtB_false_iff_string_le]

theorem routeLe_trans (a b c : String × String × String)
    (hab : routeLe a b = true) (hbc : routeLe b c = true) : routeLe a c = true := by
  rw [routeLe_iff] at hab hbc ⊢
  rcases hab with h1 | ⟨h1, h2⟩ <;> rcases hbc with h3 | ⟨h3, h4⟩
  · exact Or.inl (lt_trans h1 h3)
  · exact Or.inl (h3 ▸ h1)
  · exact Or.inl (h1 ▸ h3)
  · exact Or.inr ⟨h1.trans h3, le_trans h2 h4⟩

theorem routeLe_total (a b : String × String × String) :
    routeLe a b || routeLe b a := by
  rw [Bool.or_eq_true, routeLe_iff, routeLe_iff]
  rcases lt_trichotomy a.2.1 b.2.1 with h | h | h
  · exact Or.inl (Or.inl h)
  · rcases le_total a.1 b.1 with h2 | h2
    · exact Or.inl (Or.inr ⟨h, h2⟩)
    · exact Or.inr (Or.inr ⟨h.symm, h2⟩)
  · exact Or.inr (Or.inl h)

/-- C8: for every router state, `list_routes` returns exactly the
registered routes as `(method, path, description)` triples sorted
ascending by `(path, method)`; in particular after registering GET `/b`,
GET `/a`, POST `/a` it returns them in the order (GET, `/a`), (POST, `/a`),
(GET, `/b`). -/
theorem c8_list_routes :
    (∀ r : Router, (Router.list_routes r).Perm (routeEntries r) ∧
      (Router.list_routes r).Pairwise (fun a b =>
        a.2.1 < b.2.1 ∨ (a.2.1 = b.2.1 ∧ a.1 ≤ b.1))) ∧
    (∀ (h1 h2 h3 : RouteHandler) (d1 d2 d3 : String),
      Router.list_routes
          (((Router.empty.register "/b" "GET" h1 d1).register "/a" "GET" h2 d2).register
            "/a" "POST" h3 d3)
        = [("GET", "/a", d2), ("POST", "/a", d3), ("GET", "/b", d1)]) := by
  constructor
  · intro r
    refine ⟨List.mergeSort_perm _ _, ?_⟩
    have hs := List.sorted_mergeSort routeLe_trans routeLe_total (routeEntries r)
    exact hs.imp (fun h => (routeLe_iff _ _).mp h)
  · intro h1 h2 h3 d1 d2 d3
    have he : routeEntries
        (((Router.empty.register "/b" "GET" h1 d1).register "/a" "GET" h2 d2).register
          "/a" "POST" h3 d3)
        = [("GET", "/b", d1), ("GET", "/a", d2), ("POST", "/a", d3)] := rfl
    unfold Router.list_routes
    rw [he]
    simp [List.mergeSort, List.merge, routeLe, strLtB]

/-! ## C3: GET handler failures become logged 500 markup pages -/

theorem utf8Encode_append (a b : String) :
    utf8Encode (a ++ b) = utf8Encode a ++ utf8Encode b := by
  unfold utf8Encode
  rw [String.data_append, List.flatMap_append]

theorem infix_append_right {m t : Bytes} (s : Bytes) (h : m <:+: t) : m <:+: s ++ t := by
  obtain ⟨u, v, huv⟩ := h
  exact ⟨s ++ u, v, by rw [← huv]; simp⟩

theorem infix_head (m rest : Bytes) : m <:+: m ++ rest := ⟨[], rest, by simp⟩

theorem errorDetailsHtml_of_ne (msg : String) (hmsg : msg ≠ "") :
    errorDetailsHtml (some msg)
      = "<p class=\x27text-muted\x27>" ++ htmlEscape msg ++ "</p>" := by
  unfold errorDetailsHtml
  dsimp only
  rw [if_neg hmsg]

theorem escaped_message_infix (status : Nat) (message msg : String) :
    utf8Encode (htmlEscape msg) <:+: render_error_page status message (some msg) := by
  by_cases hmsg : msg = ""
  · subst hmsg
    rw [show utf8Encode (htmlEscape "") = [] from rfl]
    exact List.nil_infix
  · unfold render_error_page
    rw [errorDetailsHtml_of_ne msg hmsg]
    unfold render_base
    simp only [utf8Encode_append, List.append_assoc]
    repeat first
      | exact infix_head _ _
      | apply infix_append_right

/-- C3 (amended): a GET dispatch whose matched handler raises completes
normally with the logged 500 markup error page, whose body contains the
HTML-escaped failure message (hence the message itself whenever it has no
HTML-special characters); the route table is untouched, so any other
healthy route still dispatches successfully on the same router. -/
theorem c3_handler_failure (r : Router) (target msg : String) (route : Route)
    (hmatch : r.match' (requestPath target) "GET" = some route)
    (hfail : route.handler (requestQuery target) = Except.error msg) :
    r.dispatch target "GET" =
      ⟨Router._send_error msg,
       ["[Router] 失败: " ++ "GET" ++ " " ++ requestPath target ++ " - " ++ msg]⟩ ∧
    wireStatus (Router._send_error msg) = some 500 ∧
    wireContentType (Router._send_error msg) = some "text/html; charset=utf-8" ∧
    utf8Encode (htmlEscape msg) <:+: wireBody (Router._send_error msg) ∧
    (∀ (t2 : String) (rt2 : Route) (resp : Response),
      r.match' (requestPath t2) "GET" = some rt2 →
      rt2.handler (requestQuery t2) = Except.ok resp →
      r.dispatch t2 "GET" = ⟨resp.send, []⟩) := by
  refine ⟨?_, rfl, rfl, ?_, ?_⟩
  · simp [Router.dispatch, hmatch, hfail]
  · have hb : wireBody (Router._send_error msg)
        = render_error_page 500 "服务器内部错误" (some msg) := by
      simp [wireBody, Router._send_error, HtmlResponse, Response.send]
    rw [hb]
    exact escaped_message_infix 500 "服务器内部错误" msg
  · intro t2 rt2 resp hm2 hh2
    simp [Router.dispatch, hm2, hh2]

/-- C3 witness: a handler that raises `bad value` yields the logged 500
markup page containing the message, and a healthy route on the same router
still answers. -/
theorem c3_handler_failure_witness :
    ((Router.empty.register "/ok" "GET"
          (fun _ => Except.ok (HtmlResponse (utf8Encode "fine") 200)) "h").register
        "/boom" "GET" (fun _ => Except.error "bad value") "b").dispatch "/boom" "GET" =
      ⟨Router._send_error "bad value",
       ["[Router] 失败: " ++ "GET" ++ " " ++ requestPath "/boom" ++ " - " ++ "bad value"]⟩ ∧
    wireStatus (Router._send_error "bad value") = some 500 ∧
    wireContentType (Router._send_error "bad value") = some "text/html; charset=utf-8" ∧
    utf8Encode (htmlEscape "bad value") <:+: wireBody (Router._send_error "bad value") ∧
    ((Router.empty.register "/ok" "GET"
          (fun _ => Except.ok (HtmlResponse (utf8Encode "fine") 200)) "h").register
        "/boom" "GET" (fun _ => Except.error "bad value") "b").dispatch "/ok" "GET" =
      ⟨(HtmlResponse (utf8Encode "fine") 200).send, []⟩ := by
  obtain ⟨h1, h2, h3, h4, h5⟩ := c3_handler_failure
    ((Router.empty.register "/ok" "GET"
        (fun _ => Except.ok (HtmlResponse (utf8Encode "fine") 200)) "h").register
      "/boom" "GET" (fun _ => Except.error "bad value") "b")
    "/boom" "bad value"
    (Route.init "/boom" (pyUpper "GET") (fun _ => Except.error "bad value") "b")
    rfl rfl
  exact ⟨h1, h2, h3, h4, h5 "/ok"
    (Route.init "/ok" (pyUpper "GET")
      (fun _ => Except.ok (HtmlResponse (utf8Encode "fine") 200)) "h")
    (HtmlResponse (utf8Encode "fine") 200) rfl rfl⟩

theorem count_eq_zero_of_ge128 (l : Bytes) (h : ∀ b ∈ l, 128 ≤ b) : l.count 60 = 0 := by
  rw [List.count_eq_zero]
  intro hm
  have := h 60 hm
  omega

theorem count60_utf8Char (c : Char) : (utf8Char c).count 60 = if c = '<' then 1 else 0 := by
  by_cases hc : c = '<'
  · subst hc
    decide
  · rw [if_neg hc]
    unfold utf8Char
    have hne : c.toNat ≠ 60 := by
      intro h
      exact hc (by
        have := congrArg Char.ofNat h
        rwa [Char.ofNat_toNat] at this)
    by_cases h1 : c.toNat < 128
    · rw [if_pos h1]
      simp [List.count_cons, hne]
    · rw [if_neg h1]
      by_cases h2 : c.toNat < 2048
      · rw [if_pos h2]
        exact count_eq_zero_of_ge128 _ (by intro b hb; simp at hb; omega)
      · rw [if_neg h2]
        by_cases h3 : c.toNat < 65536
        · rw [if_pos h3]
          exact count_eq_zero_of_ge128 _ (by intro b hb; simp at hb; omega)
        · rw [if_neg h3]
          exact count_eq_zero_of_ge128 _ (by intro b hb; simp at hb; omega)

theorem count60_flatMap (l : List Char) :
    (l.flatMap utf8Char).count 60 = l.count '<' := by
  induction l with
  | nil => rfl
  | cons c cs ih =>
    rw [List.flatMap_cons, List.count_append, ih, count60_utf8Char, List.count_cons]
    by_cases hc : c = '<' <;> simp [hc] <;> omega

theorem count60_utf8Encode (s : String) : (utf8Encode s).count 60 = s.data.count '<' :=
  count60_flatMap s.data

theorem count_lt_htmlEscapeChar (c : Char) : (htmlEscapeChar c).count '<' = 0 := by
  unfold htmlEscapeChar
  by_cases h1 : c = '&'
  · rw [if_pos h1]; decide
  · rw [if_neg h1]
    by_cases h2 : c = '<'
    · rw [if_pos h2]; decide
    · rw [if_neg h2]
      by_cases h3 : c = '>'
      · rw [if_pos h3]; decide
      · rw [if_neg h3]
        by_cases h4 : c = '\"'
        · rw [if_pos h4]; decide
        · rw [if_neg h4]
          by_cases h5 : c.toNat = 39
          · rw [if_pos h5]; decide
          · rw [if_neg h5]
            simp [List.count_cons, h2]

theorem count_lt_htmlEscape (s : String) : (htmlEscape s).data.count '<' = 0 := by
  show (s.data.flatMap htmlEscapeChar).count '<' = 0
  induction s.data with
  | nil => rfl
  | cons c cs ih => rw [List.flatMap_cons, List.count_append, ih, count_lt_htmlEscapeChar]

/-- C3 counterexample: for the failure message made of 100 `<` characters,
the 500 page body does not contain the raw message text (HTML escaping
leaves only 51 `<` bytes in the whole page), so the dispatched response
body does not contain the failure message as the claim states. -/
theorem c3_handler_failure_counterexample :
    (Router.empty.register "/boom" "GET"
        (fun _ => Except.error ⟨List.replicate 100 '<'⟩) "").dispatch "/boom" "GET"
      = ⟨Router._send_error ⟨List.replicate 100 '<'⟩,
         ["[Router] 失败: " ++ "GET" ++ " " ++ requestPath "/boom" ++ " - " ++
           String.mk (List.replicate 100 '<')]⟩ ∧
    ¬ (utf8Encode ⟨List.replicate 100 '<'⟩ <:+:
        wireBody (Router._send_error ⟨List.replicate 100 '<'⟩)) := by
  constructor
  · rfl
  · intro hinf
    have hb : wireBody (Router._send_error ⟨List.replicate 100 '<'⟩)
        = render_error_page 500 "服务器内部错误" (some ⟨List.replicate 100 '<'⟩) := by
      simp [wireBody, Router._send_error, HtmlResponse, Response.send]
    rw [hb] at hinf
    have hc := (List.IsInfix.sublist hinf).count_le 60
    rw [count60_utf8Encode] at hc
    unfold render_error_page at hc
    rw [errorDetailsHtml_of_ne ⟨List.replicate 100 '<'⟩ (by decide)] at hc
    rw [count60_utf8Encode] at hc
    unfold render_base BASE_CSS at hc
    simp only [String.data_append, List.count_append, count_lt_htmlEscape,
      List.count_replicate_self] at hc
    revert hc
    decide

/-! ## C7: JsonResponse bodies are valid JSON texts denoting the data -/

theorem charOfNat_isDigit {m : Nat} (h1 : 48 ≤ m) (h2 : m ≤ 57) :
    (Char.ofNat m).isDigit = true := by
  interval_cases m <;> decide

theorem natDigitsAux_ne_nil {fuel n : Nat} (h : n < fuel) : natDigitsAux fuel n ≠ [] := by
  cases fuel with
  | zero => omega
  | succ f =>
    unfold natDigitsAux
    by_cases h10 : n < 10
    · simp [h10]
    · simp [h10]

theorem natDigitsAux_digits {fuel n : Nat} (h : n < fuel) :
    ∀ c ∈ natDigitsAux fuel n, c.isDigit = true := by
  induction fuel generalizing n with
  | zero => omega
  | succ f ih =>
    unfold natDigitsAux
    by_cases h10 : n < 10
    · rw [if_pos h10]
      intro c hc
      rw [List.mem_singleton.mp hc]
      exact charOfNat_isDigit (by omega) (by omega)
    · rw [if_neg h10]
      have hd : n / 10 < f := by
        have := Nat.div_lt_self (show 0 < n by omega) (show 1 < 10 by omega)
        omega
      intro c hc
      rcases List.mem_append.mp hc with hc | hc
      · exact ih hd c hc
      · rw [List.mem_singleton.mp hc]
        have := Nat.mod_lt n (show 0 < 10 by omega)
        exact charOfNat_isDigit (by omega) (by omega)

theorem digitsToNat_append (ds : List Char) (c : Char) :
    digitsToNat (ds ++ [c]) = 10 * digitsToNat ds + (c.toNat - 48) := by
  unfold digitsToNat
  rw [List.foldl_append]
  rfl

theorem natDigitsAux_val {fuel n : Nat} (h : n < fuel) :
    digitsToNat (natDigitsAux fuel n) = n := by
  induction fuel generalizing n with
  | zero => omega
  | succ f ih =>
    unfold natDigitsAux
    by_cases h10 : n < 10
    · rw [if_pos h10]
      simp only [digitsToNat, List.foldl_cons, List.foldl_nil]
      rw [toNat_ofNat_lt (by omega)]
      omega
    · rw [if_neg h10]
      have hd : n / 10 < f := by
        have := Nat.div_lt_self (show 0 < n by omega) (show 1 < 10 by omega)
        omega
      rw [digitsToNat_append, ih hd, toNat_ofNat_lt (by
        have := Nat.mod_lt n (show 0 < 10 by omega)
        omega)]
      have h1 := Nat.mod_lt n (show 0 < 10 by omega)
      have h2 := Nat.div_add_mod n 10
      omega

theorem natDigitsAux_head {fuel n : Nat} (h : n < fuel) (h1 : 1 ≤ n) :
    (natDigitsAux fuel n).head? ≠ some '0' := by
  induction fuel generalizing n with
  | zero => omega
  | succ f ih =>
    unfold natDigitsAux
    by_cases h10 : n < 10
    · rw [if_pos h10]
      simp only [List.head?_cons]
      intro hc
      have := congrArg Char.toNat (Option.some.inj hc)
      rw [toNat_ofNat_lt (by omega)] at this
      have h0 : ('0' : Char).toNat = 48 := by decide
      omega
    · rw [if_neg h10]
      have hd : n / 10 < f := by
        have := Nat.div_lt_self (show 0 < n by omega) (show 1 < 10 by omega)
        omega
      have h1' : 1 ≤ n / 10 := (Nat.le_div_iff_mul_le (show 0 < 10 by omega)).mpr (by omega)
      rw [List.head?_append_of_ne_nil _ (natDigitsAux_ne_nil hd)]
      exact ih hd h1'

theorem noLeadZero_natDigits (n : Nat) : NoLeadZero (natDigits n) := by
  unfold NoLeadZero natDigits
  by_cases h0 : n = 0
  · subst h0
    intro _
    rfl
  · intro hc
    exact absurd hc (natDigitsAux_head (by omega) (by omega))

theorem isIntLit_intRepr (n : Int) : IsIntLit (intRepr n) n := by
  unfold intRepr
  by_cases hn : n < 0
  · rw [if_pos hn]
    refine Or.inr ⟨hn, natDigits n.natAbs, rfl, natDigitsAux_ne_nil (by omega),
      natDigitsAux_digits (by omega), noLeadZero_natDigits _, ?_⟩
    rw [show natDigits n.natAbs = natDigitsAux (n.natAbs + 1) n.natAbs from rfl,
      natDigitsAux_val (by omega)]
    omega
  · rw [if_neg hn]
    refine Or.inl ⟨by omega, natDigitsAux_ne_nil (by omega),
      natDigitsAux_digits (by omega), noLeadZero_natDigits _, ?_⟩
    rw [show natDigits n.toNat = natDigitsAux (n.toNat + 1) n.toNat from rfl,
      natDigitsAux_val (by omega)]
    omega

theorem hexDigitChar_isHex {m : Nat} (h : m < 16) : isHexDigitB (hexDigitChar m) = true := by
  interval_cases m <;> decide

theorem hexVal_hexDigitChar {m : Nat} (h : m < 16) : hexVal (hexDigitChar m) = m := by
  interval_cases m <;> decide

theorem escChar_schar (c : Char) : SChar (escChar c) c := by
  unfold escChar
  by_cases h1 : c = '\"'
  · rw [if_pos h1, h1]
    exact SChar.quote
  · rw [if_neg h1]
    by_cases h2 : c = '\\'
    · rw [if_pos h2, h2]
      exact SChar.backslash
    · rw [if_neg h2]
      by_cases h3 : c = '\n'
      · rw [if_pos h3, h3]
        exact SChar.nl
      · rw [if_neg h3]
        by_cases h4 : c = '\r'
        · rw [if_pos h4, h4]
          exact SChar.cr
        · rw [if_neg h4]
          by_cases h5 : c = '\t'
          · rw [if_pos h5, h5]
            exact SChar.tab
          · rw [if_neg h5]
            by_cases h6 : c.toNat = 8
            · rw [if_pos h6]
              rw [show c = Char.ofNat 8 by rw [← h6, Char.ofNat_toNat]]
              exact SChar.bsp
            · rw [if_neg h6]
              by_cases h7 : c.toNat = 12
              · rw [if_pos h7]
                rw [show c = Char.ofNat 12 by rw [← h7, Char.ofNat_toNat]]
                exact SChar.ff
              · rw [if_neg h7]
                by_cases h8 : c.toNat < 32
                · rw [if_pos h8]
                  refine SChar.uni '0' '0' (hexDigitChar (c.toNat / 16))
                    (hexDigitChar (c.toNat % 16)) c (by decide) (by decide)
                    (hexDigitChar_isHex (by omega))
                    (hexDigitChar_isHex (by
                      have := Nat.mod_lt c.toNat (show 0 < 16 by omega)
                      omega)) ?_
                  rw [hexVal_hexDigitChar (by omega), hexVal_hexDigitChar (by
                    have := Nat.mod_lt c.toNat (show 0 < 16 by omega)
                    omega)]
                  have hv : hexVal '0' = 0 := by decide
                  rw [hv]
                  have := Nat.div_add_mod c.toNat 16
                  omega
                · rw [if_neg h8]
                  exact SChar.plain c h1 h2 (by omega)

theorem strBody_escape (l : List Char) : StrBody (l.flatMap escChar) l := by
  induction l with
  | nil => exact StrBody.nil
  | cons c cs ih =>
    rw [List.flatMap_cons]
    exact StrBody.cons (escChar_schar c) ih

theorem jws_nil : JWs [] := by
  intro c hc
  cases hc

theorem jws_indent (k : Nat) : JWs (indentStr k) := by
  intro c hc
  unfold indentStr at hc
  rcases List.mem_cons.mp hc with h | h
  · subst h
    decide
  · rw [List.eq_of_mem_replicate h]
    decide

theorem jws_space : JWs [' '] := by
  intro c hc
  rw [List.mem_singleton.mp hc]
  decide

theorem jelems_build {k : Nat} {x : Json} {xs : List Json}
    (ih : ∀ y ∈ x :: xs, ∀ j : Nat, JValue (dumps1 j y) y)
    {w1 w2 : List Char} (h1 : JWs w1) (h2 : JWs w2) :
    JElems (w1 ++ dumpItems k x xs ++ w2) (x :: xs) := by
  induction xs generalizing x w1 with
  | nil =>
    have hd : dumpItems k x [] = dumps1 k x := by simp [dumpItems]
    rw [hd]
    exact JElems.single h1 (ih x (by simp) k) h2
  | cons y ys ihl =>
    have hd : dumpItems k x (y :: ys)
        = dumps1 k x ++ ',' :: indentStr k ++ dumpItems k y ys := by
      simp [dumpItems]
    rw [hd]
    have hrest : JElems (indentStr k ++ dumpItems k y ys ++ w2) (y :: ys) :=
      ihl (fun z hz j => ih z (List.mem_cons_of_mem x hz) j) (jws_indent k)
    have h := JElems.cons h1 (ih x (by simp) k) jws_nil hrest
    simpa [List.append_assoc] using h

theorem jmembers_build {k : Nat} {m : String × Json} {ms : List (String × Json)}
    (ih : ∀ p ∈ m :: ms, ∀ j : Nat, JValue (dumps1 j p.2) p.2)
    {w1 w2 : List Char} (h1 : JWs w1) (h2 : JWs w2) :
    JMembers (w1 ++ dumpMembers k m ms ++ w2) (m :: ms) := by
  induction ms generalizing m w1 with
  | nil =>
    obtain ⟨s, v⟩ := m
    have hd : dumpMembers k (s, v) [] = encodeString s ++ ':' :: ' ' :: dumps1 k v := by
      simp [dumpMembers]
    rw [hd]
    have h := JMembers.single h1 (strBody_escape s.data) jws_nil jws_space
      (ih (s, v) (by simp) k) h2
    simpa [encodeString, List.append_assoc] using h
  | cons m2 ms2 ihl =>
    obtain ⟨s, v⟩ := m
    have hd : dumpMembers k (s, v) (m2 :: ms2)
        = (encodeString s ++ ':' :: ' ' :: dumps1 k v) ++ ',' :: indentStr k ++
            dumpMembers k m2 ms2 := by
      simp [dumpMembers]
    rw [hd]
    have hrest : JMembers (indentStr k ++ dumpMembers k m2 ms2 ++ w2) (m2 :: ms2) :=
      ihl (fun z hz j => ih z (List.mem_cons_of_mem (s, v) hz) j) (jws_indent k)
    have h := JMembers.cons h1 (strBody_escape s.data) jws_nil jws_space
      (ih (s, v) (by simp) k) jws_nil hrest
    simpa [encodeString, List.append_assoc] using h

theorem jvalue_dumps : ∀ (d : Json) (k : Nat), JValue (dumps1 k d) d
  | Json.null, k => by
    rw [show dumps1 k Json.null = ['n', 'u', 'l', 'l'] by simp [dumps1]]
    exact JValue.null
  | Json.bool true, k => by
    rw [show dumps1 k (Json.bool true) = ['t', 'r', 'u', 'e'] by simp [dumps1]]
    exact JValue.tru
  | Json.bool false, k => by
    rw [show dumps1 k (Json.bool false) = ['f', 'a', 'l', 's', 'e'] by simp [dumps1]]
    exact JValue.fls
  | Json.num n, k => by
    rw [show dumps1 k (Json.num n) = intRepr n by simp [dumps1]]
    exact JValue.num (isIntLit_intRepr n)
  | Json.str s, k => by
    rw [show dumps1 k (Json.str s) = '\"' :: s.data.flatMap escChar ++ ['\"'] by
      simp [dumps1, encodeString]]
    exact JValue.str (strBody_escape s.data)
  | Json.arr [], k => by
    rw [show dumps1 k (Json.arr []) = ['[', ']'] by simp [dumps1]]
    exact JValue.arrNil jws_nil
  | Json.arr (x :: xs), k => by
    rw [show dumps1 k (Json.arr (x :: xs))
        = '[' :: (indentStr (k + 1) ++ dumpItems (k + 1) x xs ++ indentStr k) ++ [']'] by
      simp [dumps1]]
    exact JValue.arr (jelems_build (fun y hy j => jvalue_dumps y j)
      (jws_indent (k + 1)) (jws_indent k))
  | Json.obj [], k => by
    rw [show dumps1 k (Json.obj []) = [lbrace, rbrace] by simp [dumps1]]
    exact JValue.objNil jws_nil
  | Json.obj (m :: ms), k => by
    rw [show dumps1 k (Json.obj (m :: ms))
        = lbrace :: (indentStr (k + 1) ++ dumpMembers (k + 1) m ms ++ indentStr k) ++
            [rbrace] by
      simp [dumps1]]
    exact JValue.obj (jmembers_build (fun p hp j => jvalue_dumps p.2 j)
      (jws_indent (k + 1)) (jws_indent k))
termination_by d _ => sizeOf d
decreasing_by
  · have h1 := List.sizeOf_lt_of_mem hy
    simp only [Json.arr.sizeOf_spec]
    omega
  · have h1 := List.sizeOf_lt_of_mem hp
    obtain ⟨a, b⟩ := p
    simp only [Json.obj.sizeOf_spec, Prod.mk.sizeOf_spec] at h1 ⊢
    omega

/-- C7: for every JSON-serializable data value, `JsonResponse(data)` (with
its default status 200) has as body the UTF-8 encoding of a JSON text that
denotes exactly `data`, has content-type `application/json; charset=utf-8`,
and its emitted wire sequence carries a Content-Length header equal to
`str` of the exact byte length of the body, emitted before the body. -/
theorem c7_json_response (data : Json) :
    JText (dumps data).data data ∧
    (JsonResponse data 200).body = utf8Encode (dumps data) ∧
    (JsonResponse data 200).contentType = "application/json; charset=utf-8" ∧
    (JsonResponse data 200).status = 200 ∧
    (JsonResponse data 200).send =
      [WireItem.statusLine 200,
       WireItem.header "Content-Type" "application/json; charset=utf-8",
       WireItem.header "Content-Length" (natReprStr (utf8Encode (dumps data)).length),
       WireItem.endHeaders,
       WireItem.bodyBytes (utf8Encode (dumps data))] := by
  exact ⟨⟨[], dumps1 0 data, [], jws_nil, jvalue_dumps data 0, jws_nil, by simp [dumps]⟩,
    rfl, rfl, rfl, rfl⟩

end DailyStock
